import Mathlib

set_option maxRecDepth 16384

/-!
Verification of the cmsiphy priority-classification and phrase-assembly core.

The Python sources are embedded shallowly:
* a small regular-expression engine models the subset of `re` syntax used by
  the pattern tables (literals, classes, groups, alternation, greedy
  quantifiers, word boundaries, negative lookahead), with Python's
  backtracking preference order realised as the order of an explicit list of
  candidate match results;
* the eight axis registries and the supporting-data tables are transcribed
  verbatim as string tables and compiled by an executable pattern reader;
* `detect_*`, `extract_supporting_data`, `assemble_cms_phrase` and
  `build_cms_problem_list` mirror the Python definitions, with a raised
  exception modelled as `Option.none`.

Text lowering and case conversion model CPython's behaviour on ASCII data,
which is the alphabet of every pattern and every input considered here.
-/

namespace Cmsiphy

/-- ASCII uppercase test, `A`..`Z`. -/
def isUpperAscii (c : Char) : Bool := 65 ≤ c.toNat && c.toNat ≤ 90

/-- Word character for the word-boundary test, Python's `\w` over ASCII. -/
def isWordChar (c : Char) : Bool := c.isAlpha || c.isDigit || c = '_'

/-- Whitespace as stripped by `str.strip`: exactly the code points
Python's `str.isspace` accepts (the CPython whitespace table). -/
def isPyWs (c : Char) : Bool :=
  (9 ≤ c.toNat && c.toNat ≤ 13) || (28 ≤ c.toNat && c.toNat ≤ 31) ||
  c.toNat = 32 || c.toNat = 0x85 || c.toNat = 0xa0 || c.toNat = 0x1680 ||
  (0x2000 ≤ c.toNat && c.toNat ≤ 0x200a) || c.toNat = 0x2028 ||
  c.toNat = 0x2029 || c.toNat = 0x202f || c.toNat = 0x205f ||
  c.toNat = 0x3000

/-- Python `str.lower` on an ASCII character. -/
def pyLowerChar (c : Char) : Char := c.toLower

/-- Python `str.lower` applied to the characters of a text. -/
def pyLowerData (s : String) : List Char := s.data.map pyLowerChar

/-- Python `str.strip` on a character list. -/
def pyStripL (l : List Char) : List Char :=
  ((l.dropWhile isPyWs).reverse.dropWhile isPyWs).reverse

/-- Python `str.strip` on a string. -/
def pyStrip (s : String) : String := String.mk (pyStripL s.data)

/-- Abstract syntax of the regular-expression fragment used by the tables. -/
inductive RE : Type where
  | eps : RE
  | char (c : Char) : RE
  | cls (neg : Bool) (ranges : List (Char × Char)) : RE
  | dot : RE
  | digit : RE
  | wb : RE
  | seq (a b : RE) : RE
  | alt (a b : RE) : RE
  | opt (a : RE) : RE
  | rep (a : RE) (lo : Nat) (hi : Option Nat) : RE
  | grp1 (a : RE) : RE
  | nla (a : RE) : RE
deriving Repr, DecidableEq

/-- Character membership in a class given as a list of inclusive ranges,
compared by code point. -/
def inRanges (c : Char) (ranges : List (Char × Char)) : Bool :=
  ranges.any (fun r => r.1.toNat ≤ c.toNat && c.toNat ≤ r.2.toNat)

/-- Word-boundary test of `\b` at a position of the subject. -/
def atWordBoundary (t : List Char) (pos : Nat) : Bool :=
  let before := if pos = 0 then false else
    match t[pos - 1]? with
    | some c => isWordChar c
    | none => false
  let after := match t[pos]? with
    | some c => isWordChar c
    | none => false
  before != after

/-- Decrement of an optional repetition bound. -/
def decBound : Option Nat → Option Nat
  | none => none
  | some n => some (n - 1)

/-- Candidate match results of a regex at a position: every reachable end
position together with the span captured by group 1, listed in the
backtracking engine's preference order (greedy, leftmost alternative
first).  The head of the list is the result Python's `re` would commit
to.  Recursion is structural on a fuel that every nested call consumes;
`matchFuel` below always supplies enough of it, since a repetition step
must consume at least one character. -/
def mall (t : List Char) : Nat → RE → Nat → Option (Nat × Nat) →
    List (Nat × Option (Nat × Nat))
  | 0, _, _, _ => []
  | fuel + 1, re, pos, cap =>
    match re with
    | .eps => [(pos, cap)]
    | .char c =>
      match t[pos]? with
      | some c2 => if c2 = c then [(pos + 1, cap)] else []
      | none => []
    | .cls neg ranges =>
      match t[pos]? with
      | some c2 => if inRanges c2 ranges != neg then [(pos + 1, cap)] else []
      | none => []
    | .dot =>
      match t[pos]? with
      | some c2 => if c2 = '\n' then [] else [(pos + 1, cap)]
      | none => []
    | .digit =>
      match t[pos]? with
      | some c2 => if c2.isDigit then [(pos + 1, cap)] else []
      | none => []
    | .wb => if atWordBoundary t pos then [(pos, cap)] else []
    | .seq a b =>
      (mall t fuel a pos cap).flatMap (fun pc => mall t fuel b pc.1 pc.2)
    | .alt a b => mall t fuel a pos cap ++ mall t fuel b pos cap
    | .opt a => mall t fuel a pos cap ++ [(pos, cap)]
    | .rep a lo hi =>
      if hi = some 0 then (if lo = 0 then [(pos, cap)] else [])
      else
        let more := (mall t fuel a pos cap).flatMap (fun pc =>
          if pos < pc.1 then
            mall t fuel (.rep a (lo - 1) (decBound hi)) pc.1 pc.2
          else [])
        if lo = 0 then more ++ [(pos, cap)] else more
    | .grp1 a =>
      (mall t fuel a pos cap).map (fun pc => (pc.1, some (pos, pc.1)))
    | .nla a => if (mall t fuel a pos cap).isEmpty then [(pos, cap)] else []

/-- Structural size of a regex, bounding its recursion depth. -/
def reSize : RE → Nat
  | .eps | .char _ | .cls _ _ | .dot | .digit | .wb => 1
  | .seq a b | .alt a b => reSize a + reSize b + 1
  | .opt a | .grp1 a | .nla a | .rep a _ _ => reSize a + 1

/-- Fuel that lets `mall` run to completion on a subject: depth is spent
on subterm descent and on repetition steps, each of which consumes a
character. -/
def matchFuel (re : RE) (t : List Char) : Nat :=
  (reSize re + 1) * (t.length + 2) + 8

/-- A match record: start, end, and the span of capture group 1. -/
abbrev MatchRes := Nat × Nat × Option (Nat × Nat)

/-- Leftmost match search, as `re.search` does: positions are tried in
increasing order from `start` and the first backtracking result at the
earliest successful position is committed. -/
def searchGo (t : List Char) (re : RE) : Nat → Nat → Option MatchRes
  | 0, _ => none
  | fuel + 1, start =>
    if start > t.length then none
    else
      match (mall t (matchFuel re t) re start none).head? with
      | some (e, cap) => some (start, e, cap)
      | none => searchGo t re fuel (start + 1)

/-- Search from a start position with the fuel the scan needs. -/
def searchFrom (t : List Char) (re : RE) (start : Nat) : Option MatchRes :=
  searchGo t re (t.length + 2) start

/-- All non-overlapping matches from a position, as `re.findall` collects
them: after each match the scan resumes at its end (one past it for an
empty match). -/
def findAllFrom (t : List Char) (re : RE) : Nat → Nat → List MatchRes
  | _, 0 => []
  | start, fuel + 1 =>
    match searchFrom t re start with
    | none => []
    | some m => m :: findAllFrom t re (max m.2.1 (m.1 + 1)) fuel

/-- All non-overlapping matches of a regex in a subject. -/
def reFindAll (t : List Char) (re : RE) : List MatchRes :=
  findAllFrom t re 0 (t.length + 1)

/-- Whether `re.search` succeeds anywhere in the subject. -/
def reSearch (t : List Char) (re : RE) : Bool :=
  (searchFrom t re 0).isSome

/-- A slice `t[s:e]` of the subject. -/
def sliceOf (t : List Char) (s e : Nat) : List Char := (t.drop s).take (e - s)

/-- Reads a decimal number (at least one digit) off the front of the input. -/
def takeNumber : List Char → Nat → Option (Nat × List Char)
  | [], _ => none
  | c :: rest, acc =>
    if c.isDigit then
      match takeNumber rest (acc * 10 + (c.toNat - 48)) with
      | some r => some r
      | none => some (acc * 10 + (c.toNat - 48), rest)
    else none

/-- Reads the body of a counted quantifier after its opening brace:
the forms are m, m-comma, and m-comma-n, each closed by a brace. -/
def parseBraceQuant (inp : List Char) : Option (Nat × Option Nat × List Char) :=
  match takeNumber inp 0 with
  | none => none
  | some (m, rest) =>
    match rest with
    | '\x7d' :: rest2 => some (m, some m, rest2)
    | ',' :: '\x7d' :: rest2 => some (m, none, rest2)
    | ',' :: rest2 =>
      match takeNumber rest2 0 with
      | some (n, '\x7d' :: rest3) => some (m, some n, rest3)
      | _ => none
    | _ => none

/-- Reads the items of a character class up to the closing bracket,
as ranges; a lone character is the degenerate range on itself. -/
def parseClassItems : List Char → Option (List (Char × Char) × List Char)
  | [] => none
  | ']' :: rest => some ([], rest)
  | c :: '-' :: d :: rest =>
    if d = ']' then
      match parseClassItems ('-' :: d :: rest) with
      | some (items, rest2) => some ((c, c) :: items, rest2)
      | none => none
    else
      match parseClassItems rest with
      | some (items, rest2) => some ((c, d) :: items, rest2)
      | none => none
  | c :: rest =>
    match parseClassItems rest with
    | some (items, rest2) => some ((c, c) :: items, rest2)
    | none => none

/-- Translates an escape character: word boundary, digit, or the literal
escaped character itself. -/
def escapeRE (c : Char) : RE :=
  if c = 'b' then .wb else if c = 'd' then .digit else .char c

/-- Applies a postfix quantifier to an atom when one is present. -/
def applyQuant (ast : RE) (inp : List Char) : Option (RE × List Char) :=
  match inp with
  | '?' :: rest => some (.opt ast, rest)
  | '+' :: rest => some (.rep ast 1 none, rest)
  | '*' :: rest => some (.rep ast 0 none, rest)
  | '\x7b' :: rest =>
    match parseBraceQuant rest with
    | some (m, hi, rest2) => some (.rep ast m hi, rest2)
    | none => none
  | _ => some (ast, inp)

/-- Grammar production being read: alternation, sequence, or atom. -/
inductive PMode : Type where
  | top : PMode
  | sq : PMode
  | atom : PMode
deriving Repr, DecidableEq

/-- The recursive-descent pattern reader; `g` counts capture groups
opened so far.  In atom mode the first capture group opened is marked
as group 1; further groups only count.  Recursion is structural on a
fuel that every nested call consumes. -/
def parseRE : Nat → PMode → List Char → Nat → Option (RE × Nat × List Char)
  | 0, _, _, _ => none
  | fuel + 1, .top, inp, g =>
    match parseRE fuel .sq inp g with
    | none => none
    | some (a, g2, rest) =>
      match rest with
      | '|' :: rest2 =>
        match parseRE fuel .top rest2 g2 with
        | none => none
        | some (b, g3, rest3) => some (.alt a b, g3, rest3)
      | _ => some (a, g2, rest)
  | fuel + 1, .sq, inp, g =>
    match inp with
    | [] => some (.eps, g, [])
    | ')' :: _ => some (.eps, g, inp)
    | '|' :: _ => some (.eps, g, inp)
    | _ =>
      match parseRE fuel .atom inp g with
      | none => none
      | some (a, g2, rest) =>
        match applyQuant a rest with
        | none => none
        | some (a2, rest2) =>
          match parseRE fuel .sq rest2 g2 with
          | none => none
          | some (b, g3, rest3) =>
            some (if b = .eps then a2 else .seq a2 b, g3, rest3)
  | fuel + 1, .atom, inp, g =>
    match inp with
    | '(' :: '?' :: '!' :: rest =>
      match parseRE fuel .top rest g with
      | some (a, g2, ')' :: rest2) => some (.nla a, g2, rest2)
      | _ => none
    | '(' :: rest =>
      match parseRE fuel .top rest (g + 1) with
      | some (a, g2, ')' :: rest2) =>
        some (if g = 0 then .grp1 a else a, g2, rest2)
      | _ => none
    | '[' :: '^' :: rest =>
      match parseClassItems rest with
      | some (items, rest2) => some (.cls true items, g, rest2)
      | none => none
    | '[' :: rest =>
      match parseClassItems rest with
      | some (items, rest2) => some (.cls false items, g, rest2)
      | none => none
    | '\\' :: c :: rest => some (escapeRE c, g, rest)
    | '.' :: rest => some (.dot, g, rest)
    | c :: rest => some (.char c, g, rest)
    | [] => none

/-- Compiles a pattern string to its syntax tree and capture-group count. -/
def compilePattern (p : String) : Option (RE × Nat) :=
  match parseRE (4 * p.length + 16) .top p.data 0 with
  | some (a, g, []) => some (a, g)
  | _ => none

/-- Whether `re.search` with a pattern string succeeds on a subject;
an uncompilable pattern never matches (every table pattern compiles). -/
def reSearchStr (p : String) (t : List Char) : Bool :=
  match compilePattern p with
  | some (re, _) => reSearch t re
  | none => false

/-- What one match contributes under the extraction loop's recording
rule: the text of group 1 when the pattern has capture groups (the
empty string when the group did not participate), otherwise the whole
matched text. -/
def recordOfMatch (t : List Char) (ngroups : Nat) (m : MatchRes) : List Char :=
  if ngroups = 0 then sliceOf t m.1 m.2.1
  else
    match m.2.2 with
    | some (gs, ge) => sliceOf t gs ge
    | none => []

/-- The stripped fragments one pattern contributes on a subject, one per
non-overlapping match. -/
def patFindings (p : String) (t : List Char) : List String :=
  match compilePattern p with
  | none => []
  | some (re, ng) =>
    (reFindAll t re).map (fun m => String.mk (pyStripL (recordOfMatch t ng m)))

/-! Axis registries, transcribed from the per-axis modules.  Each table is
the pattern dictionary as an ordered association list and the declared
priority list. -/

/-- Pattern dictionary of modifiers.py. -/
def MODIFIER_PATTERNS : List (String × List String) := [
  ("acute", [
    "\\bacute(?! on chronic)\\b",
    "\\bsudden\\b",
    "\\bnew( onset)?\\b",
    "\\b(abrupt|rapid|recent) onset\\b"]),
  ("chronic", [
    "\\bchronic\\b",
    "\\bhx of\\b",
    "\\bhistory of\\b",
    "\\blong[- ]standing\\b",
    "\\bpersistent\\b"]),
  ("acute_on_chronic", [
    "\\bacute on chronic\\b",
    "\\bacute[- ]and[- ]chronic\\b",
    "\\bexacerbation of chronic\\b"]),
  ("resolving", [
    "\\bimprov(ing|ed)\\b",
    "\\bresolv(ing|ed)\\b",
    "\\brecover(ing|y)\\b"]),
  ("controlled", [
    "\\bwell[- ]?controlled\\b",
    "\\badequately controlled\\b",
    "\\bcontrolled\\b",
    "\\bat goal\\b"]),
  ("uncontrolled", [
    "\\bpoorly controlled\\b",
    "\\buncontrolled\\b",
    "\\bsuboptimally controlled\\b",
    "\\bout of control\\b"]),
  ("compensated", [
    "\\bcompensated\\b",
    "\\bstable\\b",
    "\\bbaseline\\b"]),
  ("decompensated", [
    "\\bdecompensated\\b",
    "\\bexacerbation\\b",
    "\\bworsen(ing|ed)\\b",
    "\\bflare\\b",
    "\\bdeteriorat(ing|ed|ion)\\b"]),
  ("infectious", [
    "\\binfect(ed|ion)\\b",
    "\\bsepsis\\b",
    "\\binflam(mation|ed)\\b"]),
  ("neoplastic", [
    "\\bcancer\\b",
    "\\bmalignan(t|cy)\\b",
    "\\btumor\\b",
    "\\bmetasta(sis|tic)\\b"]),
  ("traumatic", [
    "\\btrauma\\b",
    "\\bfracture\\b",
    "\\blaceration\\b",
    "\\bcontusion\\b"]),
  ("unspecified", [
    "\\bunspecified\\b",
    "\\bnot specified\\b",
    "\\bunknown\\b",
    "\\bunclear\\b"])]

/-- Priority order of modifiers.py. -/
def MODIFIER_PRIORITY : List String := [
  "acute_on_chronic",
  "acute",
  "chronic",
  "decompensated",
  "controlled",
  "uncontrolled",
  "resolving",
  "compensated",
  "infectious",
  "neoplastic",
  "traumatic",
  "unspecified"]

/-- Pattern dictionary of complications.py. -/
def COMPLICATION_PATTERNS : List (String × List String) := [
  ("diabetic_nephropathy", [
    "\\bwith\\b.*\\bnephropathy\\b",
    "\\bdiabetic nephropathy\\b",
    "\\bproteinur(ia|ic)\\b",
    "\\bmicroalbuminur(ia|ic)\\b"]),
  ("diabetic_retinopathy", [
    "\\bwith\\b.*\\bretinopathy\\b",
    "\\bdiabetic retinopathy\\b",
    "\\bmacular edema\\b",
    "\\bbackground retinopathy\\b"]),
  ("diabetic_neuropathy", [
    "\\bwith\\b.*\\bneuropath(y|ic)\\b",
    "\\bdiabetic neuropathy\\b",
    "\\bpolyneuropathy\\b",
    "\\bparesthesia(s)?\\b"]),
  ("diabetic_foot_ulcer", [
    "\\bfoot ulcer\\b",
    "\\bulcer(ation)? of (toe|foot|heel|ankle)\\b",
    "\\bwith\\b.*\\bulcer\\b"]),
  ("diabetic_angio", [
    "\\bangiopath(y|ic)\\b",
    "\\bperipheral vascular disease\\b",
    "\\bPVD\\b"]),
  ("infection", [
    "\\bwith infection\\b",
    "\\binfect(ed|ion)\\b",
    "\\bcellulitis\\b",
    "\\bosteomyelitis\\b"]),
  ("sepsis", [
    "\\bsepsis\\b",
    "\\bseptic\\b",
    "\\bbacteremia\\b",
    "\\burosepsis\\b"]),
  ("cardiac", [
    "\\bwith (CHF|heart failure|cardiomyopath(y|ic))\\b",
    "\\bischemic\\b",
    "\\bcoronary\\b"]),
  ("renal", [
    "\\bAKI\\b",
    "\\brenal failure\\b",
    "\\bESRD\\b",
    "\\bdialysis\\b"]),
  ("hepatic", [
    "\\bwith (cirrhosis|ascites|encephalopathy|jaundice)\\b",
    "\\bhepatic\\b",
    "\\bliver (failure|disease)\\b"]),
  ("respiratory", [
    "\\bwith (pneumonia|ARDS|bronchospasm|asthma)\\b",
    "\\brespiratory failure\\b"]),
  ("hematologic", [
    "\\banemia\\b",
    "\\bleukopenia\\b",
    "\\bthrombocytopenia\\b",
    "\\bcoagulopathy\\b"]),
  ("neurologic", [
    "\\bencephalopath(y|ic)\\b",
    "\\bseizure(s)?\\b",
    "\\bstroke\\b",
    "\\bCVA\\b",
    "\\bTIA\\b"]),
  ("dermatologic", [
    "\\bpressure ulcer\\b",
    "\\bskin breakdown\\b",
    "\\bcellulitis\\b",
    "\\bgangrene\\b"]),
  ("pregnancy_related", [
    "\\bpreeclampsia\\b",
    "\\bHELLP\\b",
    "\\bpostpartum hemorrhage\\b",
    "\\bchorioamnionitis\\b"]),
  ("with_complication", [
    "\\bwith complication(s)?\\b",
    "\\bcomplicat(ed|ion)\\b"]),
  ("without_complication", [
    "\\bwithout complication(s)?\\b",
    "\\bno complication(s)?\\b",
    "\\bwithout manifestation(s)?\\b",
    "\\bno evidence of complication\\b"]),
  ("metabolic", [
    "\\bketoacidosis\\b",
    "\\bhyperosmolar\\b",
    "\\bhypoglycemia\\b",
    "\\bhyperglycemia\\b",
    "\\belectrolyte (imbalance|abnormalit(y|ies))\\b"])]

/-- Priority order of complications.py. -/
def COMPLICATION_PRIORITY : List String := [
  "diabetic_nephropathy",
  "diabetic_retinopathy",
  "diabetic_neuropathy",
  "diabetic_foot_ulcer",
  "diabetic_angio",
  "infection",
  "sepsis",
  "cardiac",
  "renal",
  "hepatic",
  "respiratory",
  "hematologic",
  "neurologic",
  "dermatologic",
  "pregnancy_related",
  "metabolic",
  "with_complication",
  "without_complication"]

/-- Pattern dictionary of etiology_context.py. -/
def ETIOLOGY_PATTERNS : List (String × List String) := [
  ("secondary_to", [
    "\\bsecondary to\\b",
    "\\bdue to\\b",
    "\\bcaused by\\b",
    "\\bresult(ing)? from\\b",
    "\\bfollowing\\b",
    "\\bassociated with\\b"]),
  ("postoperative", [
    "\\bpost[- ]?op(erative)?\\b",
    "\\bafter surgery\\b",
    "\\bfollowing procedure\\b",
    "\\bpost[- ]?(surgical|laparotomy|cholecystectomy|hysterectomy|appendectomy|delivery)\\b"]),
  ("iatrogenic", [
    "\\biatrogenic\\b",
    "\\bprocedure[- ]related\\b",
    "\\bdevice[- ]related\\b",
    "\\bPICC[- ]related\\b",
    "\\bcatheter[- ]associated\\b",
    "\\binfusion[- ]related\\b"]),
  ("alcohol_related", [
    "\\balcohol( use| abuse| related| dependence)?\\b",
    "\\betalcoholic (hepatitis|cirrhosis|neuropathy|cardiomyopathy)\\b"]),
  ("drug_induced", [
    "\\bdrug[- ]induced\\b",
    "\\bmedication[- ]induced\\b",
    "\\bNSAID[- ]related\\b",
    "\\bopioid[- ]induced\\b",
    "\\bsteroid[- ]induced\\b",
    "\\bACE[- ]inhibitor[- ]induced\\b",
    "\\bamiodarone[- ]induced\\b",
    "\\bchemo(therapy)?[- ]induced\\b"]),
  ("radiation_induced", [
    "\\bradiation[- ]induced\\b",
    "\\bpost[- ]radiation\\b",
    "\\bafter radiation\\b"]),
  ("ischemic", [
    "\\bischemic\\b",
    "\\bdue to ischemia\\b",
    "\\bvascular\\b",
    "\\bthrombo(tic|embolic)\\b",
    "\\bembol(ic|ism)\\b"]),
  ("autoimmune", [
    "\\bautoimmune\\b",
    "\\bimmune[- ]mediated\\b",
    "\\blupus\\b",
    "\\bSLE\\b",
    "\\bRA\\b",
    "\\bscleroderma\\b",
    "\\bvasculitis\\b"]),
  ("infectious", [
    "\\binfect(ed|ion)\\b",
    "\\bviral\\b",
    "\\bbacterial\\b",
    "\\bfungal\\b",
    "\\bseptic\\b",
    "\\bpost[- ]infectious\\b"]),
  ("metabolic", [
    "\\bmetabolic\\b",
    "\\bdiabetic\\b",
    "\\bketoacidosis\\b",
    "\\bhyperglycemia\\b",
    "\\bhyperkalemia\\b",
    "\\bhypokalemia\\b",
    "\\bhypoglycemia\\b"]),
  ("obstetric", [
    "\\bpostpartum\\b",
    "\\bperipartum\\b",
    "\\bantepartum\\b",
    "\\bpregnancy[- ]related\\b",
    "\\bpreeclampsia\\b"]),
  ("traumatic", [
    "\\btraumatic\\b",
    "\\bpost[- ]traumatic\\b",
    "\\bMVC\\b",
    "\\bfall\\b",
    "\\bblunt\\b",
    "\\bGSW\\b",
    "\\bstab\\b"]),
  ("hereditary", [
    "\\bgenetic\\b",
    "\\bhereditary\\b",
    "\\bfamilial\\b",
    "\\binherited\\b"]),
  ("neoplastic", [
    "\\bneoplas(tic|m)\\b",
    "\\bmalignan(t|cy)\\b",
    "\\btumor\\b",
    "\\bcarcinoma\\b",
    "\\bsarcoma\\b",
    "\\blymphoma\\b"]),
  ("idiopathic", [
    "\\bidiopathic\\b",
    "\\bunknown cause\\b",
    "\\bno identifiable cause\\b",
    "\\bprimary\\b(?! hypertension)"]),
  ("congenital", [
    "\\bcongenital\\b",
    "\\bbirth defect\\b",
    "\\bfrom birth\\b"])]

/-- Priority order of etiology_context.py. -/
def ETIOLOGY_PRIORITY : List String := [
  "secondary_to",
  "iatrogenic",
  "postoperative",
  "drug_induced",
  "radiation_induced",
  "alcohol_related",
  "autoimmune",
  "infectious",
  "metabolic",
  "ischemic",
  "traumatic",
  "obstetric",
  "neoplastic",
  "hereditary",
  "congenital",
  "idiopathic"]

/-- Pattern dictionary of severity_stage.py. -/
def STAGING_PATTERNS : List (String × List String) := [
  ("ckd_stage", [
    "\\bckd stage ?([1-5])\\b",
    "\\bchronic kidney disease stage ?([1-5])\\b",
    "\\bstage ?([1-5]) ?ckd\\b"]),
  ("heart_failure_nyha", [
    "\\bnyha class ?(i\x7b1,4\x7d|\\d)\\b",
    "\\bclass ?(i\x7b1,4\x7d|\\d) ?nyha\\b"]),
  ("copd_gold", [
    "\\bgold (stage|class)? ?[A-D]\\b",
    "\\bGOLD ?[A-D]\\b"]),
  ("cancer_stage", [
    "\\bstage ?[I|V|X]+[ABCD]?\\b",
    "\\bT\\d+[A-C]?\\b",
    "\\bN\\d+[A-C]?\\b",
    "\\bM\\d+[A-C]?\\b"]),
  ("child_pugh", [
    "\\bchild[- ]pugh (class|score)? ?[A-C]\\b"]),
  ("meld_score", [
    "\\bmeld ?(score)? ?\\d+\\b"]),
  ("anemia_severity", [
    "\\bmild anemia\\b",
    "\\bmoderate anemia\\b",
    "\\bsevere anemia\\b"]),
  ("hypertension_stage", [
    "\\bstage ?1 hypertension\\b",
    "\\bstage ?2 hypertension\\b",
    "\\bhypertensive (urgency|emergency)\\b"]),
  ("obesity_class", [
    "\\bobesit(y|ic)\\b",
    "\\bobese\\b",
    "\\bBMI ?(\\d\x7b2,3\x7d\\.?\\d*)\\b",
    "\\bclass ?(1|2|3) obesity\\b"]),
  ("pain_severity", [
    "\\bmild pain\\b",
    "\\bmoderate pain\\b",
    "\\bsevere pain\\b",
    "\\b10/10 pain\\b"]),
  ("copd_severity", [
    "\\bmild COPD\\b",
    "\\bmoderate COPD\\b",
    "\\bsevere COPD\\b"]),
  ("pressure_ulcer_stage", [
    "\\b(stage ?[1-4]) pressure ulcer\\b",
    "\\bpressure ulcer, stage ?[1-4]\\b",
    "\\bdeep tissue injury\\b",
    "\\bunstageable pressure injury\\b"]),
  ("fibrosis_stage", [
    "\\bfibrosis stage ?[0-4]\\b",
    "\\bmetavir ?(score|stage)? ?[0-4]\\b"])]

/-- Priority order of severity_stage.py. -/
def STAGING_PRIORITY : List String := [
  "ckd_stage",
  "heart_failure_nyha",
  "copd_gold",
  "cancer_stage",
  "child_pugh",
  "meld_score",
  "pressure_ulcer_stage",
  "fibrosis_stage",
  "anemia_severity",
  "hypertension_stage",
  "obesity_class",
  "copd_severity",
  "pain_severity"]

/-- Laterality pattern dictionary of laterality_location.py. -/
def LATERALITY_PATTERNS : List (String × List String) := [
  ("right", [
    "\\bright\\b",
    "\\brt\\b",
    "\\br[- ]sided\\b",
    "\\br-hand(ed)?\\b"]),
  ("left", [
    "\\bleft\\b",
    "\\blt\\b",
    "\\bl[- ]sided\\b",
    "\\bl-hand(ed)?\\b"]),
  ("bilateral", [
    "\\bbilateral\\b",
    "\\bbilat(eral)?\\b",
    "\\bboth\\b",
    "\\btwo[- ]sided\\b"]),
  ("midline", [
    "\\bmidline\\b",
    "\\bcentral\\b",
    "\\btracheal midline\\b"]),
  ("unspecified", [
    "\\bunspecified side\\b",
    "\\bnot specified\\b",
    "\\bunclear side\\b"])]

/-- Location pattern dictionary of laterality_location.py. -/
def LOCATION_PATTERNS : List (String × List String) := [
  ("head_neck", [
    "\\bhead\\b",
    "\\bneck\\b",
    "\\bthroat\\b",
    "\\bface\\b",
    "\\bscalp\\b"]),
  ("chest_lung", [
    "\\bchest\\b",
    "\\blung(s)?\\b",
    "\\bpulmon(ar|ic)\\b",
    "\\bpleur(a|al)\\b"]),
  ("heart_cardiac", [
    "\\bheart\\b",
    "\\bcardiac\\b",
    "\\bmyocard(ial|ium)\\b",
    "\\bpericard(itis|ium)\\b"]),
  ("abdomen_gi", [
    "\\babdomen\\b",
    "\\babdominal\\b",
    "\\bliver\\b",
    "\\bhepatic\\b",
    "\\bspleen\\b",
    "\\bpancreas\\b",
    "\\bstomach\\b",
    "\\bgallbladder\\b",
    "\\bcolon\\b",
    "\\bintestin(al|e)\\b"]),
  ("renal_genitourinary", [
    "\\bkidney(s)?\\b",
    "\\brenal\\b",
    "\\bureter(s)?\\b",
    "\\bbladder\\b",
    "\\burethra\\b",
    "\\btest(icle|is|es)\\b",
    "\\bovary|ovarian\\b",
    "\\buter(us|ine)\\b",
    "\\bprostat(e|ic)\\b"]),
  ("extremities", [
    "\\barm(s)?\\b",
    "\\bleg(s)?\\b",
    "\\bextremit(y|ies)\\b",
    "\\bupper limb\\b",
    "\\blower limb\\b"]),
  ("upper_extremity", [
    "\\bshoulder\\b",
    "\\belbow\\b",
    "\\bforearm\\b",
    "\\bhand(s)?\\b",
    "\\bwrist\\b",
    "\\bfinger(s)?\\b"]),
  ("lower_extremity", [
    "\\bhip\\b",
    "\\bthigh\\b",
    "\\bknee\\b",
    "\\bleg\\b",
    "\\bcalf\\b",
    "\\bfoot\\b",
    "\\btoe(s)?\\b",
    "\\bheel\\b",
    "\\bankle\\b"]),
  ("spine", [
    "\\bspine\\b",
    "\\bspinal\\b",
    "\\bcervical\\b",
    "\\bthoracic\\b",
    "\\blumbar\\b",
    "\\bsacral\\b"]),
  ("skin_soft_tissue", [
    "\\bskin\\b",
    "\\bsoft tissue\\b",
    "\\bsubcutaneous\\b",
    "\\bdermal\\b",
    "\\bcutaneous\\b"]),
  ("neuro_cns", [
    "\\bbrain\\b",
    "\\bcerebr(al|um)\\b",
    "\\bcerebellum\\b",
    "\\bmening(es|itis)\\b",
    "\\bCNS\\b",
    "\\bspinal cord\\b"]),
  ("vascular", [
    "\\barter(y|ies)\\b",
    "\\bvein(s)?\\b",
    "\\bvascular\\b",
    "\\bAV\\b",
    "\\baort(a|ic)\\b",
    "\\bcarotid\\b",
    "\\bfemoral\\b",
    "\\bpopliteal\\b"]),
  ("musculoskeletal", [
    "\\bmuscle(s)?\\b",
    "\\btendon(s)?\\b",
    "\\bbone(s)?\\b",
    "\\bjoint(s)?\\b",
    "\\bskeletal\\b",
    "\\bosseous\\b"])]

/-- Laterality priority of laterality_location.py. -/
def LATERALITY_PRIORITY : List String :=
  ["bilateral", "right", "left", "midline", "unspecified"]

/-- Location priority of laterality_location.py. -/
def LOCATION_PRIORITY : List String := [
  "head_neck",
  "chest_lung",
  "heart_cardiac",
  "abdomen_gi",
  "renal_genitourinary",
  "upper_extremity",
  "lower_extremity",
  "extremities",
  "spine",
  "skin_soft_tissue",
  "neuro_cns",
  "vascular",
  "musculoskeletal"]

/-- Pattern dictionary of temporal_status.py. -/
def TEMPORAL_PATTERNS : List (String × List String) := [
  ("new_onset", [
    "\\bnew( onset)?\\b",
    "\\bfirst episode\\b",
    "\\binitial presentation\\b",
    "\\brecent onset\\b",
    "\\bnewly diagnosed\\b"]),
  ("recurrent", [
    "\\brecurr(ing|ent)\\b",
    "\\brelaps(e|ing|ed)\\b",
    "\\bflare(-up)?\\b",
    "\\bbouts?\\b",
    "\\brepeat episode\\b"]),
  ("chronic_stable", [
    "\\bchronic\\b.*\\bstable\\b",
    "\\bstable chronic\\b",
    "\\bat baseline\\b",
    "\\bunchanged\\b"]),
  ("resolving", [
    "\\bimprov(ing|ed)\\b",
    "\\bresolv(ing|ed)\\b",
    "\\brecover(ing|ed|y)\\b",
    "\\bconvalescen(ce|t)\\b"]),
  ("persistent", [
    "\\bpersistent\\b",
    "\\bcontinu(ing|ous)\\b",
    "\\bnon[- ]resolving\\b",
    "\\bchronic active\\b"]),
  ("acute_exacerbation", [
    "\\bacute exacerbation\\b",
    "\\bflare\\b",
    "\\bworsen(ing|ed)\\b",
    "\\baggravat(ed|ion)\\b",
    "\\bdecompensated\\b"]),
  ("remission", [
    "\\bin remission\\b",
    "\\bno active disease\\b",
    "\\bdisease free\\b"]),
  ("relapse", [
    "\\brelaps(e|ed|ing)\\b",
    "\\brecurr(ence|ent)\\b after remission"]),
  ("history_of", [
    "\\bhx of\\b",
    "\\bhistory of\\b",
    "\\bprior\\b",
    "\\bprevious episode\\b",
    "\\bknown\\b"]),
  ("post_event", [
    "\\bpost[- ](MI|stroke|infection|surgery|procedure|partum|partum hemorrhage)\\b",
    "\\bafter\\b.*(event|illness|episode)\\b"])]

/-- Priority order of temporal_status.py. -/
def TEMPORAL_PRIORITY : List String := [
  "acute_exacerbation",
  "new_onset",
  "recurrent",
  "relapse",
  "resolving",
  "persistent",
  "chronic_stable",
  "remission",
  "post_event",
  "history_of"]

/-- Pattern dictionary of context_flags.py. -/
def CONTEXT_PATTERNS : List (String × List String) := [
  ("possible", [
    "\\bpossible\\b",
    "\\bprobable\\b",
    "\\blikely\\b",
    "\\bsusp(ect|ected|icion of)\\b",
    "\\bconsider(ing|ed)?\\b",
    "\\brule[- ]?in\\b",
    "\\bawaiting confirmation\\b"]),
  ("ruled_out", [
    "\\bruled out\\b",
    "\\bno evidence of\\b",
    "\\bnot consistent with\\b",
    "\\bnegative for\\b",
    "\\bworkup negative\\b",
    "\\bdenies\\b",
    "\\bwithout (signs|evidence) of\\b"]),
  ("confirmed", [
    "\\bconfirmed\\b",
    "\\bproven\\b",
    "\\bdocumented\\b",
    "\\bdiagnosed\\b",
    "\\bverified\\b",
    "\\bclear evidence of\\b",
    "\\bpositive for\\b"]),
  ("differential", [
    "\\bdifferential includes\\b",
    "\\bdiff dx\\b",
    "\\brule[- ]?out list\\b",
    "\\bconsider\\b.*(versus|vs)\\b"]),
  ("pending", [
    "\\bpending\\b",
    "\\bawaiting results\\b",
    "\\bresults pending\\b",
    "\\bto be determined\\b",
    "\\bawaiting (labs|imaging|pathology)\\b"]),
  ("insufficient_data", [
    "\\bunclear\\b",
    "\\bnot specified\\b",
    "\\bunspecified\\b",
    "\\binsufficient\\b",
    "\\bnot documented\\b",
    "\\bunknown\\b",
    "\\bTBD\\b"]),
  ("historical", [
    "\\bhx of\\b",
    "\\bhistory of\\b",
    "\\bpreviously had\\b",
    "\\bresolved\\b",
    "\\btreated\\b",
    "\\bpast\\b"]),
  ("secondary_condition", [
    "\\bsecondary condition\\b",
    "\\bcomorbid\\b",
    "\\bco-existing\\b"])]

/-- Priority order of context_flags.py. -/
def CONTEXT_PRIORITY : List String := [
  "confirmed",
  "possible",
  "ruled_out",
  "pending",
  "differential",
  "insufficient_data",
  "historical",
  "secondary_condition"]

/-! Supporting-data tables of supporting_data_rules.py. -/

/-- Lab patterns of supporting_data_rules.py. -/
def LAB_PATTERNS : List (String × List String) := [
  ("renal", [
    "\\bCr( ?=|:)? ?\\d+(\\.\\d+)?\\b",
    "\\bcreatinine( level)?( ?=|:)? ?\\d+(\\.\\d+)?\\b",
    "\\bBUN( ?=|:)? ?\\d+\\b"]),
  ("electrolytes", [
    "\\bNa( ?=|:)? ?\\d+\\b",
    "\\bK( ?=|:)? ?\\d+\\b",
    "\\bCl( ?=|:)? ?\\d+\\b",
    "\\bCO2( ?=|:)? ?\\d+\\b",
    "\\bbicarb( ?=|:)? ?\\d+\\b"]),
  ("cbc", [
    "\\bWBC( ?=|:)? ?\\d+(\\.\\d+)?\\b",
    "\\bHgb( ?=|:)? ?\\d+(\\.\\d+)?\\b",
    "\\bHct( ?=|:)? ?\\d+(\\.\\d+)?\\b",
    "\\bplatelets?( ?=|:)? ?\\d+\\b"]),
  ("liver", [
    "\\bAST( ?=|:)? ?\\d+\\b",
    "\\bALT( ?=|:)? ?\\d+\\b",
    "\\bbili(rubin)?( ?=|:)? ?\\d+(\\.\\d+)?\\b",
    "\\balk phos( ?=|:)? ?\\d+\\b"]),
  ("glucose", [
    "\\bglucose( ?=|:)? ?\\d+\\b",
    "\\bblood sugar( ?=|:)? ?\\d+\\b"]),
  ("infection_inflammation", [
    "\\bCRP( ?=|:)? ?\\d+\\b",
    "\\bESR( ?=|:)? ?\\d+\\b",
    "\\bprocalcitonin( ?=|:)? ?\\d+(\\.\\d+)?\\b",
    "\\blactate( ?=|:)? ?\\d+(\\.\\d+)?\\b"]),
  ("coags", [
    "\\bINR( ?=|:)? ?\\d+(\\.\\d+)?\\b",
    "\\bPT( ?=|:)? ?\\d+\\b",
    "\\bPTT( ?=|:)? ?\\d+\\b"])]

/-- Vital-sign patterns of supporting_data_rules.py. -/
def VITAL_PATTERNS : List (String × List String) := [
  ("temperature", [
    "\\bT( ?=|:)? ?\\d+(\\.\\d+)?( ?[CF])?\\b",
    "\\btemp(erature)?( ?=|:)? ?\\d+(\\.\\d+)?\\b"]),
  ("blood_pressure", [
    "\\bBP( ?=|:)? ?\\d\x7b2,3\x7d/\\d\x7b2,3\x7d\\b",
    "\\bblood pressure\\b"]),
  ("heart_rate", [
    "\\bHR( ?=|:)? ?\\d+\\b",
    "\\bpulse( ?=|:)? ?\\d+\\b"]),
  ("resp_rate", [
    "\\bRR( ?=|:)? ?\\d+\\b",
    "\\bresp(iration| rate)?( ?=|:)? ?\\d+\\b"]),
  ("oxygen", [
    "\\bSpO2( ?=|:)? ?\\d+%?\\b",
    "\\bO2 sat(uration)?( ?=|:)? ?\\d+%?\\b",
    "\\bon (room air|RA|oxygen|NC|nasal cannula)\\b"]),
  ("weight", [
    "\\bweight( ?=|:)? ?\\d+(\\.\\d+)? ?(kg|lb|lbs)?\\b"])]

/-- Imaging patterns of supporting_data_rules.py. -/
def IMAGING_PATTERNS : List (String × List String) := [
  ("xray", [
    "\\bX[- ]?ray\\b",
    "\\bradiograph\\b"]),
  ("ct", [
    "\\bCT( scan)?\\b",
    "\\bcomputed tomography\\b"]),
  ("mri", [
    "\\bMRI\\b",
    "\\bmagnetic resonance\\b"]),
  ("ultrasound", [
    "\\bultrasound\\b",
    "\\bUS\\b",
    "\\bsonogram\\b"]),
  ("echo", [
    "\\bechocardiogram\\b",
    "\\becho\\b"]),
  ("cxr_findings", [
    "\\bpneumonia\\b",
    "\\binfiltrate\\b",
    "\\bconsolidation\\b",
    "\\bpleural effusion\\b"])]

/-- Treatment-marker patterns of supporting_data_rules.py. -/
def TREATMENT_MARKERS : List (String × List String) := [
  ("antibiotic", [
    "\\bon (ceftriaxone|zosyn|vanco(mycin)?|azithro(mycin)?|levofloxacin|augmentin|amox|penicillin|doxycycline)\\b"]),
  ("diuretic", [
    "\\bon (lasix|furosemide|torsemide|bumetanide)\\b"]),
  ("insulin", [
    "\\bon insulin\\b",
    "\\binsulin (glargine|lispro|aspart|detemir|NPH)\\b"]),
  ("oxygen_therapy", [
    "\\bon (oxygen|O2|NC|nasal cannula|high[- ]flow)\\b",
    "\\brequiring oxygen\\b"]),
  ("ventilation", [
    "\\bmechanical ventilation\\b",
    "\\bintubated\\b",
    "\\bon ventilator\\b"])]

/-! The classification engine shared by the eight axis modules: walk the
priority list; the first label one of whose patterns matches anywhere in
the lower-cased text is returned, post-formatted; with no match at all
the sentinel is returned. -/

/-- Pattern lookup in an ordered table, as the dict subscript does. -/
def lookupPats (tbl : List (String × List String)) (k : String) : List String :=
  match tbl.find? (fun e => e.1 == k) with
  | some e => e.2
  | none => []

/-- The priority loop over the remaining labels. -/
def detectGo (pats : String → List String) (fmt : String → String)
    (t : List Char) : List String → String
  | [] => "unspecified"
  | k :: ks =>
    if (pats k).any (fun p => reSearchStr p t) then fmt k
    else detectGo pats fmt t ks

/-- The generic priority classifier: lower-case, then run the loop. -/
def detectPriority (priority : List String) (pats : String → List String)
    (fmt : String → String) (text : String) : String :=
  detectGo pats fmt (pyLowerData text) priority

/-- Python str.replace of underscores by spaces, the pretty-formatting
several detectors apply to the winning key. -/
def underscoreSpace (s : String) : String :=
  String.mk (s.data.map (fun c => if c = '_' then ' ' else c))

/-- detect_modifier of modifiers.py. -/
def detect_modifier (text : String) : String :=
  detectPriority MODIFIER_PRIORITY (lookupPats MODIFIER_PATTERNS) id text

/-- detect_complication of complications.py (returns the key with
underscores replaced by spaces). -/
def detect_complication (text : String) : String :=
  detectPriority COMPLICATION_PRIORITY (lookupPats COMPLICATION_PATTERNS)
    underscoreSpace text

/-- detect_etiology of etiology_context.py (pretty-formatted key). -/
def detect_etiology (text : String) : String :=
  detectPriority ETIOLOGY_PRIORITY (lookupPats ETIOLOGY_PATTERNS)
    underscoreSpace text

/-- detect_stage_or_severity of severity_stage.py (pretty-formatted key). -/
def detect_stage_or_severity (text : String) : String :=
  detectPriority STAGING_PRIORITY (lookupPats STAGING_PATTERNS)
    underscoreSpace text

/-- detect_laterality of laterality_location.py. -/
def detect_laterality (text : String) : String :=
  detectPriority LATERALITY_PRIORITY (lookupPats LATERALITY_PATTERNS) id text

/-- detect_location of laterality_location.py (pretty-formatted key). -/
def detect_location (text : String) : String :=
  detectPriority LOCATION_PRIORITY (lookupPats LOCATION_PATTERNS)
    underscoreSpace text

/-- detect_temporal_status of temporal_status.py (pretty-formatted key). -/
def detect_temporal_status (text : String) : String :=
  detectPriority TEMPORAL_PRIORITY (lookupPats TEMPORAL_PATTERNS)
    underscoreSpace text

/-- detect_context of context_flags.py. -/
def detect_context (text : String) : String :=
  detectPriority CONTEXT_PRIORITY (lookupPats CONTEXT_PATTERNS) id text

/-! extract_supporting_data of supporting_data_rules.py. -/

/-- Every pattern of the four groups, in the loop's visiting order. -/
def allSupportPatterns : List String :=
  [LAB_PATTERNS, VITAL_PATTERNS, IMAGING_PATTERNS, TREATMENT_MARKERS].flatMap
    (fun g => g.flatMap (fun cat => cat.2))

/-- The fragments the extraction loop adds to its finding set, in
visiting order (the set keeps one copy of each distinct value). -/
def findingsList (text : String) : List String :=
  allSupportPatterns.flatMap (fun p => patFindings p (pyLowerData text))

/-- Lexicographic code-point comparison of character lists, the order
Python's sorted uses on strings. -/
def lexLe : List Char → List Char → Bool
  | [], _ => true
  | _ :: _, [] => false
  | a :: as, b :: bs =>
    if a < b then true else if b < a then false else lexLe as bs

/-- The comparison on strings. -/
def strLe (a b : String) : Bool := lexLe a.data b.data

/-- Insertion into a sorted list. -/
def pyInsert (x : String) : List String → List String
  | [] => [x]
  | y :: ys => if strLe x y then x :: y :: ys else y :: pyInsert x ys

/-- Python sorted on strings: lexicographic by code point. -/
def pySorted (l : List String) : List String := l.foldr pyInsert []

/-- The fixed sentinel phrase returned when no supporting data is found. -/
def noSupportSentinel : String := "⚠️ No supporting data"

/-- extract_supporting_data of supporting_data_rules.py: collect, dedup,
sort, truncate, join; sentinel when nothing was found. -/
def extract_supporting_data (text : String) (max_items : Nat) : String :=
  let findings := findingsList text
  if findings.isEmpty then noSupportSentinel
  else String.intercalate ", " ((pySorted findings.dedup).take max_items)

/-! assemble_cms_phrase and build_cms_problem_list of cms_output_rules.py.
An exception raised by the Python code (the index error on an empty
phrase) is modelled as none. -/

/-- Python str.join with a single-space separator. -/
def joinWords : List String → String
  | [] => ""
  | [s] => s
  | s :: rest => s ++ " " ++ joinWords rest

/-- add_if_present of cms_output_rules.py: falsy or sentinel is absent. -/
def addIfPresent (label : String) : Option String :=
  if label = "" || label = "unspecified" then none else some label

/-- Step 1 of the assembler: temporal or else modifier. -/
def temporalPartList (temporal modifier : String) : List String :=
  match addIfPresent temporal with
  | some tp => [tp]
  | none =>
    match addIfPresent modifier with
    | some mp => [mp]
    | none => []

/-- Step 3 of the assembler: append a piece unless absent or already
present verbatim among the parts. -/
def addPiece (parts : List String) (piece : Option String) : List String :=
  match piece with
  | none => parts
  | some p => if p ∈ parts then parts else parts ++ [p]

/-- Python str.startswith as a plain prefix test on characters. -/
def pyStartsWith (pre s : String) : Bool := s.data.take pre.length == pre.data

/-- Step 5 of the assembler: the etiology clause, appended when the
value is present, does not have the four-character prefix with, and is
neither sentinel nor none. -/
def etiologyPart (etiology : String) : List String :=
  if (addIfPresent etiology).isSome then
    if !pyStartsWith "with" etiology &&
        (etiology != "unspecified" && etiology != "none") then
      ["due to " ++ etiology]
    else []
  else []

/-- Step 6 of the assembler: laterality and location joined as one unit. -/
def spatialPart (laterality location : String) : List String :=
  let spatial :=
    (match addIfPresent laterality with
     | some _ => [laterality]
     | none => []) ++
    (match addIfPresent location with
     | some _ => [location]
     | none => [])
  if spatial.isEmpty then [] else [joinWords spatial]

/-- Step 7 of the assembler: the parenthesised context qualifier. -/
def contextPart (context : String) : List String :=
  if (addIfPresent context).isSome &&
      (context != "unspecified" && context != "none") then
    ["(" ++ context ++ ")"]
  else []

/-- The ordered parts list the assembler builds before joining. -/
def assembleParts (base_diagnosis modifier complication stage temporal
    laterality location etiology context severity : String) : List String :=
  let parts : List String := temporalPartList temporal modifier
  let parts := parts ++ [pyStrip base_diagnosis]
  let parts := addPiece parts (addIfPresent stage)
  let parts := addPiece parts (addIfPresent severity)
  let parts := parts ++
    (if (addIfPresent complication).isSome then ["with " ++ complication]
     else [])
  let parts := parts ++ etiologyPart etiology
  let parts := parts ++ spatialPart laterality location
  let parts := parts ++ contextPart context
  parts

/-- Upper-cases the first character of a string, as phrase[0].upper()
prepended to the rest does. -/
def capFirst (s : String) : String :=
  match s.data with
  | [] => s
  | c :: rest => String.mk (c.toUpper :: rest)

/-- The supporting-data separator exactly as the source spells it (a
mojibake em-dash). -/
def supportSep : String := " â€” "

/-- The phrase before capitalisation: the parts joined by spaces and
stripped. -/
def joinedPhrase (base_diagnosis modifier complication stage temporal
    laterality location etiology context severity : String) : String :=
  pyStrip (joinWords (assembleParts base_diagnosis modifier complication
    stage temporal laterality location etiology context severity))

/-- assemble_cms_phrase of cms_output_rules.py.  Returns none exactly
where the Python code raises: indexing character 0 of an empty joined
phrase. -/
def assemble_cms_phrase (base_diagnosis modifier complication stage temporal
    laterality location etiology context severity supporting_data : String) :
    Option String :=
  if joinedPhrase base_diagnosis modifier complication stage temporal
      laterality location etiology context severity = "" then none
  else some (capFirst (joinedPhrase base_diagnosis modifier complication
      stage temporal laterality location etiology context severity) ++
    (if supporting_data = "" then "" else supportSep ++ supporting_data))

/-- One problem dict of build_cms_problem_list: a field is absent or a
string; p.get supplies the defaults. -/
structure ProblemObject : Type where
  diagnosis : Option String
  modifier : Option String
  complication : Option String
  stage : Option String
  temporal : Option String
  laterality : Option String
  location : Option String
  etiology : Option String
  context : Option String
  severity : Option String
  supporting_data : Option String
deriving Repr, DecidableEq

/-- The empty problem dict. -/
def emptyProblem : ProblemObject :=
  ⟨none, none, none, none, none, none, none, none, none, none, none⟩

/-- The assembler call build_cms_problem_list makes for one record,
with the p.get defaults. -/
def assembleRecord (p : ProblemObject) : Option String :=
  assemble_cms_phrase (p.diagnosis.getD "unspecified")
    (p.modifier.getD "unspecified") (p.complication.getD "unspecified")
    (p.stage.getD "unspecified") (p.temporal.getD "unspecified")
    (p.laterality.getD "unspecified") (p.location.getD "unspecified")
    (p.etiology.getD "unspecified") (p.context.getD "unspecified")
    (p.severity.getD "unspecified") (p.supporting_data.getD "")

/-- The numbered lines of the problem list from a starting index; a
raised exception in any record's assembly aborts the whole run. -/
def buildLines : Nat → List ProblemObject → Option (List String)
  | _, [] => some []
  | idx, p :: ps =>
    match assembleRecord p with
    | none => none
    | some phrase =>
      match buildLines (idx + 1) ps with
      | none => none
      | some rest => some ((toString idx ++ ". " ++ phrase) :: rest)

/-- build_cms_problem_list of cms_output_rules.py. -/
def build_cms_problem_list (problem_objects : List ProblemObject) :
    Option String :=
  match buildLines 1 problem_objects with
  | none => none
  | some ls =>
    some (String.intercalate "\n" ("# CMS-Ready Problem List" :: ls))

/-! Auxiliary notions the theorems quantify over. -/

/-- The registry invariant: the priority list repeats no label and is
exactly the key set of the pattern dictionary. -/
def registryOk (priority : List String) (tbl : List (String × List String)) :
    Prop :=
  priority.Nodup ∧ (tbl.map Prod.fst).Nodup ∧
  (∀ k ∈ priority, k ∈ tbl.map Prod.fst) ∧
  (∀ k ∈ tbl.map Prod.fst, k ∈ priority)

/-- A conservative syntactic certificate that every successful match of
the regex must read an uppercase ASCII letter from the subject. -/
def mustUpper : RE → Bool
  | .eps => false
  | .char c => isUpperAscii c
  | .cls neg ranges =>
    !neg && ranges.all (fun r => 65 ≤ r.1.toNat && r.2.toNat ≤ 90)
  | .dot => false
  | .digit => false
  | .wb => false
  | .seq a b => mustUpper a || mustUpper b
  | .alt a b => mustUpper a && mustUpper b
  | .opt _ => false
  | .rep a lo _ => decide (lo ≠ 0) && mustUpper a
  | .grp1 a => mustUpper a
  | .nla _ => false

/-- The certificate read off a pattern string through compilation. -/
def mustUpperPat (p : String) : Bool :=
  match compilePattern p with
  | some re => mustUpper re.1
  | none => true

/-- The subject contains no uppercase ASCII letter. -/
def allLowerL (t : List Char) : Prop := ∀ c ∈ t, isUpperAscii c = false

/-- The table patterns whose match requires an uppercase literal: the
renal, BUN, WBC and Hgb labs, the BP, HR, RR and SpO2 vitals, and the
CT, MRI and US imaging references. -/
def upperLiteralPatterns : List String := [
  "\\bCr( ?=|:)? ?\\d+(\\.\\d+)?\\b",
  "\\bBUN( ?=|:)? ?\\d+\\b",
  "\\bWBC( ?=|:)? ?\\d+(\\.\\d+)?\\b",
  "\\bHgb( ?=|:)? ?\\d+(\\.\\d+)?\\b",
  "\\bBP( ?=|:)? ?\\d\x7b2,3\x7d/\\d\x7b2,3\x7d\\b",
  "\\bHR( ?=|:)? ?\\d+\\b",
  "\\bRR( ?=|:)? ?\\d+\\b",
  "\\bSpO2( ?=|:)? ?\\d+%?\\b",
  "\\bCT( scan)?\\b",
  "\\bMRI\\b",
  "\\bUS\\b"]

/-- A record with an ordinary diagnosis text and nothing else. -/
def influenzaRecord : ProblemObject :=
  ⟨some "influenza", none, none, none, none, none, none, none, none, none,
    none⟩

/-- A record whose diagnosis value is the empty string: assembling it
hits the index error. -/
def emptyDiagnosisRecord : ProblemObject :=
  ⟨some "", none, none, none, none, none, none, none, none, none, none⟩

/-! Generic facts about the priority loop. -/

/-- The loop unfolded one label. -/
theorem detectGo_cons (pats : String → List String) (fmt : String → String)
    (t : List Char) (k : String) (ks : List String) :
    detectGo pats fmt t (k :: ks) =
      if (pats k).any (fun p => reSearchStr p t) then fmt k
      else detectGo pats fmt t ks := rfl

/-- The loop's value is the sentinel or some priority label formatted. -/
theorem detectGo_mem (pats : String → List String) (fmt : String → String)
    (t : List Char) (pr : List String) :
    detectGo pats fmt t pr = "unspecified" ∨
      detectGo pats fmt t pr ∈ pr.map fmt := by
  induction pr with
  | nil => left; rfl
  | cons k ks ih =>
    rw [detectGo_cons]
    split
    · right
      exact List.mem_map_of_mem fmt (List.mem_cons_self k ks)
    · rcases ih with h | h
      · left; exact h
      · right
        rw [List.map_cons]
        exact List.mem_cons_of_mem _ h

/-- A nonempty-valued formatted label list forces a nonempty result. -/
theorem detectGo_ne_empty (pats : String → List String)
    (fmt : String → String) (t : List Char) (pr : List String)
    (hne : ∀ s ∈ pr.map fmt, s ≠ "") : detectGo pats fmt t pr ≠ "" := by
  rcases detectGo_mem pats fmt t pr with h | h
  · rw [h]; decide
  · exact hne _ h

/-- Claim C1 (amended): for every input string, each of the eight axis
classifiers returns either the sentinel unspecified or a label of its
declared priority list pretty-formatted the way that detector formats
its winning key — the identity for the modifier, laterality and context
axes, and underscores replaced by spaces for the complication, etiology,
stage, location and temporal axes — and the result is never the empty
string.  (The claim as frozen asserts membership in the raw declared
label set; the five formatting detectors leave that set.) -/
theorem c1_classifier_range (text : String) :
    (detect_modifier text = "unspecified" ∨
      detect_modifier text ∈ MODIFIER_PRIORITY) ∧
    (detect_complication text = "unspecified" ∨
      detect_complication text ∈ COMPLICATION_PRIORITY.map underscoreSpace) ∧
    (detect_etiology text = "unspecified" ∨
      detect_etiology text ∈ ETIOLOGY_PRIORITY.map underscoreSpace) ∧
    (detect_stage_or_severity text = "unspecified" ∨
      detect_stage_or_severity text ∈ STAGING_PRIORITY.map underscoreSpace) ∧
    (detect_laterality text = "unspecified" ∨
      detect_laterality text ∈ LATERALITY_PRIORITY) ∧
    (detect_location text = "unspecified" ∨
      detect_location text ∈ LOCATION_PRIORITY.map underscoreSpace) ∧
    (detect_temporal_status text = "unspecified" ∨
      detect_temporal_status text ∈ TEMPORAL_PRIORITY.map underscoreSpace) ∧
    (detect_context text = "unspecified" ∨
      detect_context text ∈ CONTEXT_PRIORITY) ∧
    detect_modifier text ≠ "" ∧ detect_complication text ≠ "" ∧
    detect_etiology text ≠ "" ∧ detect_stage_or_severity text ≠ "" ∧
    detect_laterality text ≠ "" ∧ detect_location text ≠ "" ∧
    detect_temporal_status text ≠ "" ∧ detect_context text ≠ "" := by
  refine ⟨?_, ?_, ?_, ?_, ?_, ?_, ?_, ?_, ?_, ?_, ?_, ?_, ?_, ?_, ?_, ?_⟩
  · simpa using detectGo_mem (lookupPats MODIFIER_PATTERNS) id
      (pyLowerData text) MODIFIER_PRIORITY
  · exact detectGo_mem (lookupPats COMPLICATION_PATTERNS) underscoreSpace
      (pyLowerData text) COMPLICATION_PRIORITY
  · exact detectGo_mem (lookupPats ETIOLOGY_PATTERNS) underscoreSpace
      (pyLowerData text) ETIOLOGY_PRIORITY
  · exact detectGo_mem (lookupPats STAGING_PATTERNS) underscoreSpace
      (pyLowerData text) STAGING_PRIORITY
  · simpa using detectGo_mem (lookupPats LATERALITY_PATTERNS) id
      (pyLowerData text) LATERALITY_PRIORITY
  · exact detectGo_mem (lookupPats LOCATION_PATTERNS) underscoreSpace
      (pyLowerData text) LOCATION_PRIORITY
  · exact detectGo_mem (lookupPats TEMPORAL_PATTERNS) underscoreSpace
      (pyLowerData text) TEMPORAL_PRIORITY
  · simpa using detectGo_mem (lookupPats CONTEXT_PATTERNS) id
      (pyLowerData text) CONTEXT_PRIORITY
  · exact detectGo_ne_empty _ _ _ _ (by decide)
  · exact detectGo_ne_empty _ _ _ _ (by decide)
  · exact detectGo_ne_empty _ _ _ _ (by decide)
  · exact detectGo_ne_empty _ _ _ _ (by decide)
  · exact detectGo_ne_empty _ _ _ _ (by decide)
  · exact detectGo_ne_empty _ _ _ _ (by decide)
  · exact detectGo_ne_empty _ _ _ _ (by decide)
  · exact detectGo_ne_empty _ _ _ _ (by decide)

/-- Claim C1, counterexample to the frozen wording: on the input
proteinuria the complication detector returns diabetic nephropathy
(space-formatted), which is not the sentinel and lies outside the
declared label set, whose members are the underscored dictionary keys. -/
theorem c1_counterexample :
    detect_complication "proteinuria" = "diabetic nephropathy" ∧
    "diabetic nephropathy" ∉ COMPLICATION_PRIORITY ∧
    "diabetic nephropathy" ∉ COMPLICATION_PATTERNS.map Prod.fst ∧
    "diabetic nephropathy" ≠ "unspecified" :=
  ⟨by decide, by decide, by decide, by decide⟩

/-- Claim C9: in each of the eight registries the priority sequence has
no duplicate labels and coincides, as a set, with the key set of the
pattern dictionary. -/
theorem c9_registry_invariant :
    registryOk MODIFIER_PRIORITY MODIFIER_PATTERNS ∧
    registryOk COMPLICATION_PRIORITY COMPLICATION_PATTERNS ∧
    registryOk ETIOLOGY_PRIORITY ETIOLOGY_PATTERNS ∧
    registryOk STAGING_PRIORITY STAGING_PATTERNS ∧
    registryOk LATERALITY_PRIORITY LATERALITY_PATTERNS ∧
    registryOk LOCATION_PRIORITY LOCATION_PATTERNS ∧
    registryOk TEMPORAL_PRIORITY TEMPORAL_PATTERNS ∧
    registryOk CONTEXT_PRIORITY CONTEXT_PATTERNS := by
  refine ⟨?_, ?_, ?_, ?_, ?_, ?_, ?_, ?_⟩ <;>
    exact ⟨by decide, by decide, by decide, by decide⟩

/-- Claim C3: the worked example assembles to exactly the expected
phrase. -/
theorem c3_example_phrase :
    assemble_cms_phrase "pneumonia" "acute" "sepsis" "unspecified"
      "unspecified" "right" "lung" "bacterial" "confirmed" "unspecified"
      "" =
    some "Acute pneumonia with sepsis due to bacterial right lung (confirmed)" := by
  decide

/-! Facts for claim C4. -/

/-- Any-existence over a list depends only on its members. -/
theorem any_perm_eq {α : Type} (f : α → Bool) {l l2 : List α}
    (h : List.Perm l l2) : l.any f = l2.any f := by
  by_cases hl : l.any f = true
  · rcases List.any_eq_true.mp hl with ⟨x, hx, hfx⟩
    rw [hl]
    exact (List.any_eq_true.mpr ⟨x, h.mem_iff.mp hx, hfx⟩).symm
  · have hl2 : ¬l2.any f = true := by
      intro h2
      rcases List.any_eq_true.mp h2 with ⟨x, hx, hfx⟩
      exact hl (List.any_eq_true.mpr ⟨x, h.mem_iff.mpr hx, hfx⟩)
    rw [Bool.not_eq_true] at hl hl2
    rw [hl, hl2]

/-- Claim C4: the classification loop is determined by priority order
alone.  First, permuting any label's pattern list leaves the result
unchanged; second, the result is the first label in priority order one
of whose patterns matches, formatted, and the sentinel with no match;
third, on text matching patterns of two distinct labels, with the
earlier of them preceded only by non-matching labels, the loop returns
the earlier label — the later one is never consulted. -/
theorem c4_priority_determinism :
    (∀ (pr : List String) (pats pats2 : String → List String)
      (fmt : String → String) (t : List Char),
      (∀ k, List.Perm (pats k) (pats2 k)) →
      detectGo pats fmt t pr = detectGo pats2 fmt t pr) ∧
    (∀ (pr : List String) (pats : String → List String)
      (fmt : String → String) (t : List Char),
      detectGo pats fmt t pr =
        match pr.find? (fun k => (pats k).any (fun p => reSearchStr p t)) with
        | some k => fmt k
        | none => "unspecified") ∧
    (∀ (pats : String → List String) (fmt : String → String) (t : List Char)
      (pre mid post : List String) (A B : String),
      (pats A).any (fun p => reSearchStr p t) = true →
      (pats B).any (fun p => reSearchStr p t) = true →
      (∀ C ∈ pre, (pats C).any (fun p => reSearchStr p t) = false) →
      detectGo pats fmt t (pre ++ (A :: (mid ++ (B :: post)))) = fmt A) := by
  refine ⟨?_, ?_, ?_⟩
  · intro pr pats pats2 fmt t hperm
    induction pr with
    | nil => rfl
    | cons k ks ih =>
      rw [detectGo_cons, detectGo_cons,
        any_perm_eq (fun p => reSearchStr p t) (hperm k), ih]
  · intro pr pats fmt t
    induction pr with
    | nil => rfl
    | cons k ks ih =>
      rw [detectGo_cons]
      by_cases h : (pats k).any (fun p => reSearchStr p t) = true
      · rw [if_pos h]
        simp [List.find?, h]
      · rw [Bool.not_eq_true] at h
        rw [if_neg (by simp [h])]
        simp only [List.find?, h]
        exact ih
  · intro pats fmt t pre mid post A B hA _hB hpre
    induction pre with
    | nil => rw [List.nil_append, detectGo_cons, if_pos hA]
    | cons C pre ih =>
      rw [List.cons_append, detectGo_cons,
        if_neg (by simp [hpre C (List.mem_cons_self C pre)])]
      exact ih (fun D hD => hpre D (List.mem_cons_of_mem C hD))

/-- Claim C4, witness: the text acute cancer matches a pattern of the
label acute and one of the later label neoplastic, the only earlier
label does not match, and the modifier loop returns acute. -/
theorem c4_witness :
    detectGo (lookupPats MODIFIER_PATTERNS) id (pyLowerData "acute cancer")
      MODIFIER_PRIORITY = "acute" := by
  have h := c4_priority_determinism.2.2 (lookupPats MODIFIER_PATTERNS) id
    (pyLowerData "acute cancer") ["acute_on_chronic"]
    ["chronic", "decompensated", "controlled", "uncontrolled", "resolving",
      "compensated", "infectious"]
    ["traumatic", "unspecified"] "acute" "neoplastic"
    (by decide) (by decide) (by decide)
  exact h

/-! Facts about stripping and joining, for claims C5 and C2. -/

/-- Dropping a whitespace prefix does not lose non-whitespace
characters. -/
theorem filter_dropWhile_ws (l : List Char) :
    (l.dropWhile isPyWs).filter (fun c => !isPyWs c) =
      l.filter (fun c => !isPyWs c) := by
  conv_rhs => rw [← List.takeWhile_append_dropWhile isPyWs l]
  rw [List.filter_append]
  have h : (l.takeWhile isPyWs).filter (fun c => !isPyWs c) = [] := by
    rw [List.filter_eq_nil_iff]
    intro a ha
    simp [List.mem_takeWhile_imp ha]
  rw [h, List.nil_append]

/-- Stripping preserves exactly the non-whitespace characters. -/
theorem filter_pyStripL (l : List Char) :
    (pyStripL l).filter (fun c => !isPyWs c) =
      l.filter (fun c => !isPyWs c) := by
  unfold pyStripL
  rw [List.filter_reverse, filter_dropWhile_ws, List.filter_reverse,
    filter_dropWhile_ws, List.reverse_reverse]

/-- A non-whitespace character keeps the stripped list nonempty. -/
theorem pyStripL_ne_nil {l : List Char} {c : Char} (hc : c ∈ l)
    (hw : isPyWs c = false) : pyStripL l ≠ [] := by
  intro h
  have h2 := filter_pyStripL l
  rw [h] at h2
  have h3 : c ∈ l.filter (fun c => !isPyWs c) :=
    List.mem_filter.mpr ⟨hc, by simp [hw]⟩
  rw [← h2] at h3
  exact absurd h3 (List.not_mem_nil c)

/-- A nonempty stripped string has a non-whitespace character. -/
theorem exists_nonws_of_pyStrip_ne {s : String} (h : pyStrip s ≠ "") :
    ∃ c ∈ s.data, isPyWs c = false := by
  by_contra hno
  push_neg at hno
  apply h
  have hall : ∀ x ∈ s.data, isPyWs x = true := by
    intro x hx
    have := hno x hx
    revert this
    cases isPyWs x <;> simp
  have hdrop : s.data.dropWhile isPyWs = [] :=
    List.dropWhile_eq_nil_iff.mpr hall
  rw [String.ext_iff]
  show (pyStripL s.data) = "".data
  unfold pyStripL
  rw [hdrop]
  rfl

/-- The stripped form of a string keeps one of its non-whitespace
characters. -/
theorem exists_nonws_mem_pyStrip {s : String} (h : pyStrip s ≠ "") :
    ∃ c ∈ (pyStrip s).data, isPyWs c = false := by
  rcases exists_nonws_of_pyStrip_ne h with ⟨c, hc, hw⟩
  have h3 : c ∈ s.data.filter (fun c => !isPyWs c) :=
    List.mem_filter.mpr ⟨hc, by simp [hw]⟩
  rw [← filter_pyStripL] at h3
  rcases List.mem_filter.mp h3 with ⟨hmem, hnw⟩
  refine ⟨c, hmem, ?_⟩
  revert hnw
  cases isPyWs c <;> simp

/-- The join of a list with at least two members unfolded one step. -/
theorem joinWords_cons_cons (s s2 : String) (rest : List String) :
    joinWords (s :: s2 :: rest) = s ++ " " ++ joinWords (s2 :: rest) := rfl

/-- A character of any member string occurs in the joined string. -/
theorem mem_joinWords {parts : List String} {x : String} {c : Char}
    (hx : x ∈ parts) (hc : c ∈ x.data) : c ∈ (joinWords parts).data := by
  induction parts with
  | nil => exact absurd hx (List.not_mem_nil x)
  | cons s rest ih =>
    cases rest with
    | nil =>
      rcases List.mem_singleton.mp hx with rfl
      exact hc
    | cons s2 rest2 =>
      rw [joinWords_cons_cons, String.data_append, String.data_append]
      rcases List.mem_cons.mp hx with rfl | hx2
      · exact List.mem_append_left _ (List.mem_append_left _ hc)
      · rw [← String.data_append]
        exact List.mem_append_right _ (ih hx2)

/-- Appending a deduplicated piece preserves membership. -/
theorem mem_addPiece {parts : List String} {x : String}
    (hx : x ∈ parts) (piece : Option String) : x ∈ addPiece parts piece := by
  cases piece with
  | none => exact hx
  | some p =>
    by_cases hp : p ∈ parts
    · simpa [addPiece, hp] using hx
    · simp only [addPiece, if_neg hp]
      exact List.mem_append_left _ hx

/-- The stripped base diagnosis is always among the assembled parts. -/
theorem pyStrip_base_mem_assembleParts (base modifier complication stage
    temporal laterality location etiology context severity : String) :
    pyStrip base ∈ assembleParts base modifier complication stage temporal
      laterality location etiology context severity := by
  unfold assembleParts
  apply List.mem_append_left
  apply List.mem_append_left
  apply List.mem_append_left
  apply List.mem_append_left
  apply mem_addPiece
  apply mem_addPiece
  exact List.mem_append_right _ (List.mem_singleton.mpr rfl)

/-- Claim C5 (amended): the assembler returns a string whenever the
stripped base diagnosis is nonempty, whatever the other fields hold;
the frozen claim's further case — empty or whitespace-only base
diagnosis with every optional field at the sentinel — instead raises
the index error of step 8 (see the counterexample). -/
theorem c5_amended (base modifier complication stage temporal laterality
    location etiology context severity supporting_data : String)
    (h : pyStrip base ≠ "") :
    (assemble_cms_phrase base modifier complication stage temporal
      laterality location etiology context severity
      supporting_data).isSome = true := by
  unfold assemble_cms_phrase
  rw [if_neg]
  · rfl
  · rcases exists_nonws_mem_pyStrip h with ⟨c, hc, hw⟩
    have hmem : c ∈ (joinWords (assembleParts base modifier complication
        stage temporal laterality location etiology context
        severity)).data :=
      mem_joinWords (pyStrip_base_mem_assembleParts base modifier
        complication stage temporal laterality location etiology context
        severity) hc
    intro hempty
    unfold joinedPhrase at hempty
    have hnil : pyStripL (joinWords (assembleParts base modifier
        complication stage temporal laterality location etiology context
        severity)).data = [] := by
      have := String.ext_iff.mp hempty
      exact this
    exact pyStripL_ne_nil hmem hw hnil

/-- Claim C5, counterexample: with an empty base diagnosis and every
optional field at its default the Python assembler raises an index
error (modelled as none) instead of returning a string; likewise for a
whitespace-only base diagnosis, including the form-feed and
file-separator characters str.strip also removes. -/
theorem c5_counterexample :
    assemble_cms_phrase "" "unspecified" "unspecified" "unspecified"
      "unspecified" "unspecified" "unspecified" "unspecified" "unspecified"
      "unspecified" "" = none ∧
    assemble_cms_phrase "   " "unspecified" "unspecified" "unspecified"
      "unspecified" "unspecified" "unspecified" "unspecified" "unspecified"
      "unspecified" "" = none ∧
    assemble_cms_phrase "\x0b\x0c\x1c\x1f" "unspecified" "unspecified"
      "unspecified" "unspecified" "unspecified" "unspecified" "unspecified"
      "unspecified" "unspecified" "" = none := by
  exact ⟨by decide, by decide, by decide⟩

/-- Claim C5, witness: a one-word base diagnosis with all defaults
assembles successfully. -/
theorem c5_witness :
    (assemble_cms_phrase "flu" "unspecified" "unspecified" "unspecified"
      "unspecified" "unspecified" "unspecified" "unspecified" "unspecified"
      "unspecified" "").isSome = true :=
  c5_amended "flu" "unspecified" "unspecified" "unspecified" "unspecified"
    "unspecified" "unspecified" "unspecified" "unspecified" "unspecified"
    "" (by decide)

/-- Claim C2 (amended): a record whose assembly fails is not isolated —
its exception propagates out of the loop and the whole problem-list
build aborts, producing no output lines for any record and no
per-record error marker. -/
theorem c2_amended (ps : List ProblemObject) (p : ProblemObject)
    (hp : p ∈ ps) (hfail : assembleRecord p = none) :
    build_cms_problem_list ps = none := by
  have hlines : ∀ idx : Nat, buildLines idx ps = none := by
    induction ps with
    | nil => exact absurd hp (List.not_mem_nil p)
    | cons q qs ih =>
      intro idx
      rcases List.mem_cons.mp hp with rfl | hmem
      · show buildLines idx (p :: qs) = none
        unfold buildLines
        rw [hfail]
      · show buildLines idx (q :: qs) = none
        unfold buildLines
        cases hq : assembleRecord q with
        | none => rfl
        | some phrase =>
          rw [ih hmem (idx + 1)]
  unfold build_cms_problem_list
  rw [hlines 1]

/-- Claim C2, counterexample: a healthy record followed by a record
with an empty diagnosis string yields no output at all — the healthy
record's line disappears with it — while the healthy record alone
builds its numbered line. -/
theorem c2_counterexample :
    build_cms_problem_list [influenzaRecord, emptyDiagnosisRecord] = none ∧
    build_cms_problem_list [influenzaRecord] =
      some "# CMS-Ready Problem List\n1. Influenza" := by
  exact ⟨by decide, by decide⟩

/-- Claim C2, witness: the amended theorem applied to the two-record
list whose second record has an empty diagnosis. -/
theorem c2_witness :
    build_cms_problem_list [influenzaRecord, emptyDiagnosisRecord] = none :=
  c2_amended [influenzaRecord, emptyDiagnosisRecord] emptyDiagnosisRecord
    (by decide) (by decide)

/-- Claim C8 (amended): the due-to clause is appended exactly when the
etiology is nonempty, differs from the sentinel and from none, and does
not start with the four-character prefix with — a prefix test, not a
word test, so an etiology beginning with the word withdrawal is also
suppressed; the clause sits between the complication part and the
spatial part of the assembly. -/
theorem c8_amended :
    (∀ etiology : String,
      etiologyPart etiology =
        if etiology ≠ "" ∧ etiology ≠ "unspecified" ∧ etiology ≠ "none" ∧
            pyStartsWith "with" etiology = false then
          ["due to " ++ etiology]
        else []) ∧
    etiologyPart "withdrawal" = [] ∧
    (∀ base modifier complication stage temporal laterality location
      etiology context severity : String,
      assembleParts base modifier complication stage temporal laterality
          location etiology context severity =
        (addPiece (addPiece (temporalPartList temporal modifier ++
            [pyStrip base]) (addIfPresent stage)) (addIfPresent severity) ++
          (if (addIfPresent complication).isSome then
            ["with " ++ complication] else [])) ++
        etiologyPart etiology ++
        (spatialPart laterality location ++ contextPart context)) := by
  refine ⟨?_, by decide, ?_⟩
  · intro e
    by_cases h1 : e = ""
    · simp [etiologyPart, addIfPresent, h1]
    · by_cases h2 : e = "unspecified"
      · simp [etiologyPart, addIfPresent, h2]
      · by_cases h3 : e = "none"
        · simp [etiologyPart, addIfPresent, h1, h2, h3]
        · by_cases h4 : pyStartsWith "with" e = true
          · simp [etiologyPart, addIfPresent, h1, h2, h3, h4]
          · rw [Bool.not_eq_true] at h4
            simp [etiologyPart, addIfPresent, h1, h2, h3, h4]
  · intro base modifier complication stage temporal laterality location
      etiology context severity
    unfold assembleParts
    simp [List.append_assoc]

/-- Claim C8, counterexample: with the etiology withdrawal the due-to
clause is suppressed — the output is Nausea with no due-to fragment —
although withdrawal only has with as a prefix, not as a word. -/
theorem c8_counterexample :
    assemble_cms_phrase "nausea" "unspecified" "unspecified" "unspecified"
      "unspecified" "unspecified" "unspecified" "withdrawal" "unspecified"
      "unspecified" "" = some "Nausea" ∧
    ¬ List.IsInfix "due to".data "Nausea".data := by
  exact ⟨by decide, by decide⟩

/-! Facts about the sorted, deduplicated rendering, for claim C7. -/

/-- The Boolean comparison agrees with the lexicographic string order. -/
theorem lexLe_iff : ∀ as bs : List Char, lexLe as bs = true ↔ ¬List.lt bs as := by
  intro as
  induction as with
  | nil =>
    intro bs
    simp only [lexLe]
    constructor
    · intro _ h
      cases h
    · intro _
      trivial
  | cons a as ih =>
    intro bs
    cases bs with
    | nil =>
      simp only [lexLe]
      constructor
      · intro h
        exact absurd h (by simp)
      · intro h
        exact absurd (List.lt.nil a as) h
    | cons b bs =>
      simp only [lexLe]
      by_cases h1 : a < b
      · rw [if_pos h1]
        constructor
        · intro _ hlt
          cases hlt with
          | head _ _ hba => exact absurd h1 (lt_asymm hba)
          | tail _ hab _ => exact hab h1
        · intro _
          rfl
      · rw [if_neg h1]
        by_cases h2 : b < a
        · rw [if_pos h2]
          constructor
          · intro h
            exact absurd h (by simp)
          · intro h
            exact absurd (List.lt.head bs as h2) h
        · rw [if_neg h2, ih bs]
          constructor
          · intro h hlt
            cases hlt with
            | head _ _ hba => exact h2 hba
            | tail _ _ htail => exact h htail
          · intro h hlt
            exact h (List.lt.tail h2 h1 hlt)

/-- The comparison realises the library string order. -/
theorem strLe_iff (a b : String) : strLe a b = true ↔ a ≤ b := by
  show strLe a b = true ↔ ¬b < a
  constructor
  · intro h hba
    have h2 : List.Lex (· < ·) b.data a.data :=
      String.lt_iff_toList_lt.mp hba
    exact (lexLe_iff a.data b.data).mp h ((List.lt_iff_lex_lt _ _).mpr h2)
  · intro h
    apply (lexLe_iff a.data b.data).mpr
    intro h3
    exact h (String.lt_iff_toList_lt.mpr ((List.lt_iff_lex_lt _ _).mp h3))

/-- The comparison is total. -/
theorem strLe_total (a b : String) : strLe a b = true ∨ strLe b a = true := by
  rcases le_total a b with h | h
  · exact Or.inl ((strLe_iff a b).mpr h)
  · exact Or.inr ((strLe_iff b a).mpr h)

/-- Inserting contributes exactly one new member. -/
theorem pyInsert_perm (x : String) : ∀ l : List String,
    List.Perm (pyInsert x l) (x :: l) := by
  intro l
  induction l with
  | nil => exact List.Perm.refl _
  | cons y ys ih =>
    show List.Perm (if strLe x y then x :: y :: ys else y :: pyInsert x ys) _
    split
    · exact List.Perm.refl _
    · exact (List.Perm.cons y ih).trans (List.Perm.swap x y ys)

/-- The sort permutes its input. -/
theorem pySorted_perm : ∀ l : List String, List.Perm (pySorted l) l := by
  intro l
  induction l with
  | nil => exact List.Perm.refl _
  | cons x xs ih =>
    show List.Perm (pyInsert x (pySorted xs)) _
    exact (pyInsert_perm x (pySorted xs)).trans (List.Perm.cons x ih)

/-- Insertion keeps the list sorted. -/
theorem pyInsert_sorted (x : String) : ∀ l : List String,
    List.Sorted (fun a b : String => a ≤ b) l →
    List.Sorted (fun a b : String => a ≤ b) (pyInsert x l) := by
  intro l
  induction l with
  | nil =>
    intro _
    simp [pyInsert]
  | cons y ys ih =>
    intro hs
    rcases List.sorted_cons.mp hs with ⟨hy, hys⟩
    show List.Sorted _ (if strLe x y then x :: y :: ys else y :: pyInsert x ys)
    by_cases hxy : strLe x y = true
    · rw [if_pos hxy]
      refine List.sorted_cons.mpr ⟨?_, hs⟩
      intro b hb
      rcases List.mem_cons.mp hb with rfl | hb2
      · exact (strLe_iff x b).mp hxy
      · exact le_trans ((strLe_iff x y).mp hxy) (hy b hb2)
    · rw [if_neg hxy]
      refine List.sorted_cons.mpr ⟨?_, ih hys⟩
      intro b hb
      rcases List.mem_cons.mp ((pyInsert_perm x ys).mem_iff.mp hb) with
        rfl | hb2
      · rcases strLe_total b y with h | h
        · exact absurd h hxy
        · exact (strLe_iff y b).mp h
      · exact hy b hb2

/-- The sort sorts. -/
theorem pySorted_sorted : ∀ l : List String,
    List.Sorted (fun a b : String => a ≤ b) (pySorted l) := by
  intro l
  induction l with
  | nil => exact List.sorted_nil
  | cons x xs ih => exact pyInsert_sorted x (pySorted xs) ih

/-- Claim C7: the extractor deduplicates its fragments, sorts them
strictly increasing in the lexicographic string order, truncates to at
most max_items of them — all of them recorded fragments — and joins
with a comma; with no fragment at all it returns the fixed sentinel
instead (and, being a total function, it never raises). -/
theorem c7_dedup_sort_truncate (text : String) (max_items : Nat) :
    extract_supporting_data text max_items =
      (if findingsList text = [] then noSupportSentinel
       else String.intercalate ", "
         ((pySorted (findingsList text).dedup).take max_items)) ∧
    List.Sorted (fun a b : String => a < b)
      (pySorted (findingsList text).dedup) ∧
    List.Perm (pySorted (findingsList text).dedup) (findingsList text).dedup ∧
    ((pySorted (findingsList text).dedup).take max_items).length ≤
      max_items ∧
    ((pySorted (findingsList text).dedup).take max_items) ⊆
      findingsList text := by
  refine ⟨?_, ?_, pySorted_perm _, ?_, ?_⟩
  · unfold extract_supporting_data
    by_cases h : findingsList text = []
    · rw [if_pos (List.isEmpty_iff.mpr h), if_pos h]
    · rw [if_neg (by simpa [List.isEmpty_iff] using h), if_neg h]
  · apply List.Sorted.lt_of_le (pySorted_sorted _)
    exact ((pySorted_perm _).nodup_iff).mpr (List.nodup_dedup _)
  · rw [List.length_take]
    exact Nat.min_le_left _ _
  · intro x hx
    have h1 : x ∈ pySorted (findingsList text).dedup :=
      List.take_subset _ _ hx
    have h2 : x ∈ (findingsList text).dedup :=
      (pySorted_perm _).mem_iff.mp h1
    exact List.mem_dedup.mp h2

/-- Claim C7, witness: three distinct fragments sorted and truncated to
two, rendered comma-separated. -/
theorem c7_witness :
    extract_supporting_data "echo pneumonia intubated" 2 =
      "echo, intubated" := by
  rw [(c7_dedup_sort_truncate "echo pneumonia intubated" 2).1]
  decide

/-! Facts about the match scan, for claim C6. -/

/-- A match result never ends before the position it started from. -/
theorem mall_pos_le (t : List Char) :
    ∀ (fuel : Nat) (re : RE) (pos : Nat) (cap : Option (Nat × Nat)),
      ∀ r ∈ mall t fuel re pos cap, pos ≤ r.1 := by
  intro fuel
  induction fuel with
  | zero =>
    intro re pos cap r hr
    simp [mall] at hr
  | succ fuel ih =>
    intro re pos cap r hr
    cases re with
    | eps =>
      simp only [mall, List.mem_singleton] at hr
      subst hr
      exact Nat.le_refl pos
    | char c =>
      simp only [mall] at hr
      split at hr <;> try split at hr
      all_goals first
        | exact absurd hr (List.not_mem_nil r)
        | (rw [List.mem_singleton.mp hr]
           try first
             | exact Nat.le_refl pos
             | exact Nat.le_succ pos)
    | cls neg ranges =>
      simp only [mall] at hr
      split at hr <;> try split at hr
      all_goals first
        | exact absurd hr (List.not_mem_nil r)
        | (rw [List.mem_singleton.mp hr]
           try first
             | exact Nat.le_refl pos
             | exact Nat.le_succ pos)
    | dot =>
      simp only [mall] at hr
      split at hr <;> try split at hr
      all_goals first
        | exact absurd hr (List.not_mem_nil r)
        | (rw [List.mem_singleton.mp hr]
           try first
             | exact Nat.le_refl pos
             | exact Nat.le_succ pos)
    | digit =>
      simp only [mall] at hr
      split at hr <;> try split at hr
      all_goals first
        | exact absurd hr (List.not_mem_nil r)
        | (rw [List.mem_singleton.mp hr]
           try first
             | exact Nat.le_refl pos
             | exact Nat.le_succ pos)
    | wb =>
      simp only [mall] at hr
      split at hr
      all_goals first
        | exact absurd hr (List.not_mem_nil r)
        | (rw [List.mem_singleton.mp hr]
           try exact Nat.le_refl pos)
    | seq a b =>
      simp only [mall] at hr
      rcases List.mem_flatMap.mp hr with ⟨pc, hpc, hr2⟩
      exact Nat.le_trans (ih a pos cap pc hpc) (ih b pc.1 pc.2 r hr2)
    | alt a b =>
      simp only [mall] at hr
      rcases List.mem_append.mp hr with h | h
      · exact ih a pos cap r h
      · exact ih b pos cap r h
    | opt a =>
      simp only [mall] at hr
      rcases List.mem_append.mp hr with h | h
      · exact ih a pos cap r h
      · rw [List.mem_singleton.mp h]
        try exact Nat.le_refl pos
    | rep a lo hi =>
      simp only [mall] at hr
      split at hr
      · split at hr
        · rw [List.mem_singleton.mp hr]
          try exact Nat.le_refl pos
        · simp at hr
      · split at hr
        · rcases List.mem_append.mp hr with h | h
          · rcases List.mem_flatMap.mp h with ⟨pc, hpc, hr2⟩
            split at hr2
            · exact Nat.le_trans (ih a pos cap pc hpc)
                (ih _ pc.1 pc.2 r hr2)
            · simp at hr2
          · rw [List.mem_singleton.mp h]
            try exact Nat.le_refl pos
        · rcases List.mem_flatMap.mp hr with ⟨pc, hpc, hr2⟩
          split at hr2
          · exact Nat.le_trans (ih a pos cap pc hpc)
              (ih _ pc.1 pc.2 r hr2)
          · simp at hr2
    | grp1 a =>
      simp only [mall] at hr
      rcases List.mem_map.mp hr with ⟨pc, hpc, heq⟩
      rw [← heq]
      exact ih a pos cap pc hpc
    | nla a =>
      simp only [mall] at hr
      split at hr
      all_goals first
        | exact absurd hr (List.not_mem_nil r)
        | (rw [List.mem_singleton.mp hr]
           try exact Nat.le_refl pos)

/-- A successful search starts at or after the scan position and does
not end before its own start. -/
theorem searchGo_some (t : List Char) (re : RE) :
    ∀ (fuel start : Nat) (m : MatchRes), searchGo t re fuel start = some m →
      start ≤ m.1 ∧ m.1 ≤ m.2.1 := by
  intro fuel
  induction fuel with
  | zero =>
    intro start m h
    simp [searchGo] at h
  | succ fuel ih =>
    intro start m h
    simp only [searchGo] at h
    split at h
    · simp at h
    · rcases hh : (mall t (matchFuel re t) re start none).head? with _ | ec <;>
        rw [hh] at h
      · rcases ih (start + 1) m h with ⟨h1, h2⟩
        exact ⟨Nat.le_of_succ_le h1, h2⟩
      · rcases Option.some.inj h with rfl
        refine ⟨Nat.le_refl start, ?_⟩
        exact mall_pos_le t (matchFuel re t) re start none ec
          (List.mem_of_mem_head? hh)

/-- The scan collects matches with increasing, pairwise non-overlapping
spans, each lying at or after the scan position. -/
theorem findAllFrom_bounds_chain (t : List Char) (re : RE) :
    ∀ (fuel start : Nat),
      (∀ m ∈ findAllFrom t re start fuel, start ≤ m.1 ∧ m.1 ≤ m.2.1) ∧
      List.Chain' (fun m1 m2 : MatchRes => m1.2.1 ≤ m2.1 ∧ m1.1 < m2.1)
        (findAllFrom t re start fuel) := by
  intro fuel
  induction fuel with
  | zero =>
    intro start
    exact ⟨fun m hm => absurd hm (List.not_mem_nil m), List.chain'_nil⟩
  | succ fuel ih =>
    intro start
    rcases hs : searchFrom t re start with _ | m
    · have hred : findAllFrom t re start (fuel + 1) = [] := by
        simp [findAllFrom, hs]
      rw [hred]
      exact ⟨fun m hm => absurd hm (List.not_mem_nil m), List.chain'_nil⟩
    · have hred : findAllFrom t re start (fuel + 1) =
          m :: findAllFrom t re (max m.2.1 (m.1 + 1)) fuel := by
        simp [findAllFrom, hs]
      rw [hred]
      obtain ⟨hm1, hm2⟩ := searchGo_some t re (t.length + 2) start m hs
      constructor
      · intro m2 hm'
        rcases List.mem_cons.mp hm' with rfl | hmem
        · exact ⟨hm1, hm2⟩
        · obtain ⟨h3, h4⟩ := (ih (max m.2.1 (m.1 + 1))).1 m2 hmem
          refine ⟨?_, h4⟩
          calc start ≤ m.1 + 1 := Nat.le_succ_of_le hm1
            _ ≤ max m.2.1 (m.1 + 1) := Nat.le_max_right _ _
            _ ≤ m2.1 := h3
      · apply List.chain'_cons'.mpr
        constructor
        · intro y hy
          obtain ⟨h3, h4⟩ := (ih (max m.2.1 (m.1 + 1))).1 y
            (List.mem_of_mem_head? hy)
          constructor
          · exact Nat.le_trans (Nat.le_max_left _ _) h3
          · exact Nat.lt_of_lt_of_le (Nat.lt_succ_self m.1)
              (Nat.le_trans (Nat.le_max_right _ _) h3)
        · exact (ih (max m.2.1 (m.1 + 1))).2

/-- Claim C6: the finding list is exactly the per-pattern findings of
every pattern of every group; the scan underlying each pattern yields
all its matches as a strictly advancing, non-overlapping sequence; a
pattern with several matches records each one (the diuretic pattern's
captured drug names); a pattern with capture groups records the text of
its first group, trimmed of surrounding whitespace, and a pattern
without groups records the whole matched text. -/
theorem c6_extraction_matches (text : String) :
    (∀ v : String, v ∈ findingsList text ↔
      ∃ p, p ∈ allSupportPatterns ∧ v ∈ patFindings p (pyLowerData text)) ∧
    (∀ (t : List Char) (re : RE),
      List.Chain' (fun m1 m2 : MatchRes => m1.2.1 ≤ m2.1 ∧ m1.1 < m2.1)
        (reFindAll t re)) ∧
    patFindings "\\bon (lasix|furosemide|torsemide|bumetanide)\\b"
      (pyLowerData "on lasix and on torsemide") = ["lasix", "torsemide"] ∧
    extract_supporting_data "on amox on vanco" 4 = "amox, vanco" ∧
    extract_supporting_data "intubated" 4 = "intubated" ∧
    extract_supporting_data "creatinine level 2" 4 = "level" := by
  refine ⟨?_, ?_, by decide, by decide, by decide, by decide⟩
  · intro v
    unfold findingsList
    exact List.mem_flatMap
  · intro t re
    exact (findAllFrom_bounds_chain t re (t.length + 1) 0).2

/-- Claim C6, witness: the theorem applied at a concrete note, giving
the two recorded matches of the diuretic pattern. -/
theorem c6_witness :
    patFindings "\\bon (lasix|furosemide|torsemide|bumetanide)\\b"
      (pyLowerData "on lasix and on torsemide") = ["lasix", "torsemide"] :=
  (c6_extraction_matches "on lasix and on torsemide").2.2.1

/-! Facts about patterns with required uppercase literals, for claim
C10. -/

/-- When every successful match must read an uppercase ASCII letter and
the subject has none, there is no match at all. -/
theorem mall_mustUpper (t : List Char) (ht : allLowerL t) :
    ∀ (fuel : Nat) (re : RE), mustUpper re = true →
      ∀ (pos : Nat) (cap : Option (Nat × Nat)),
        mall t fuel re pos cap = [] := by
  intro fuel
  induction fuel with
  | zero => intro re _ pos cap; rfl
  | succ fuel ih =>
    intro re hm pos cap
    cases re with
    | eps => simp [mustUpper] at hm
    | char c =>
      simp only [mustUpper] at hm
      simp only [mall]
      rcases hco : t[pos]? with _ | c2
      · rfl
      · show (if c2 = c then [(pos + 1, cap)] else []) = []
        rw [if_neg]
        intro heq
        have hc2 : isUpperAscii c2 = false := ht c2 (List.getElem?_mem hco)
        rw [heq, hm] at hc2
        exact Bool.noConfusion hc2
    | cls neg ranges =>
      simp only [mustUpper, Bool.and_eq_true, Bool.not_eq_true'] at hm
      obtain ⟨hneg, hall⟩ := hm
      simp only [mall]
      rcases hco : t[pos]? with _ | c2
      · rfl
      · show (if (inRanges c2 ranges != neg) = true
            then [(pos + 1, cap)] else []) = []
        have hc2 : isUpperAscii c2 = false := ht c2 (List.getElem?_mem hco)
        have hin : inRanges c2 ranges = false := by
          rw [← Bool.not_eq_true]
          intro hany
          rcases List.any_eq_true.mp hany with ⟨r, hrmem, hrle⟩
          have hup := List.all_eq_true.mp hall r hrmem
          simp only [Bool.and_eq_true, decide_eq_true_eq] at hrle hup
          have : isUpperAscii c2 = true := by
            simp only [isUpperAscii, Bool.and_eq_true, decide_eq_true_eq]
            omega
          rw [this] at hc2
          exact Bool.noConfusion hc2
        rw [hneg, hin]
        rfl
    | dot => simp [mustUpper] at hm
    | digit => simp [mustUpper] at hm
    | wb => simp [mustUpper] at hm
    | opt a => simp [mustUpper] at hm
    | nla a => simp [mustUpper] at hm
    | seq a b =>
      simp only [mustUpper, Bool.or_eq_true] at hm
      simp only [mall]
      rcases hm with ha | hb
      · rw [ih a ha pos cap]
        rfl
      · rw [List.flatMap_eq_nil_iff]
        intro pc _
        exact ih b hb pc.1 pc.2
    | alt a b =>
      simp only [mustUpper, Bool.and_eq_true] at hm
      simp only [mall]
      rw [ih a hm.1 pos cap, ih b hm.2 pos cap]
      rfl
    | grp1 a =>
      simp only [mustUpper] at hm
      simp only [mall]
      rw [ih a hm pos cap]
      rfl
    | rep a lo hi =>
      simp only [mustUpper, Bool.and_eq_true, decide_eq_true_eq] at hm
      obtain ⟨hlo, ha⟩ := hm
      simp only [mall]
      by_cases hh : hi = some 0
      · rw [if_pos hh, if_neg hlo]
      · rw [if_neg hh, ih a ha pos cap]
        simp only [List.flatMap_nil]
        rw [if_neg hlo]

/-- No match anywhere means the search scan returns nothing. -/
theorem searchGo_none (t : List Char) (re : RE)
    (h : ∀ pos cap, mall t (matchFuel re t) re pos cap = []) :
    ∀ (fuel start : Nat), searchGo t re fuel start = none := by
  intro fuel
  induction fuel with
  | zero => intro start; rfl
  | succ fuel ih =>
    intro start
    simp only [searchGo]
    split
    · rfl
    · rw [h start none]
      exact ih (start + 1)

/-- Packing a small valid code point round-trips through ofNat. -/
theorem toNat_ofNat_valid (n : Nat) (h : n.isValidChar) :
    (Char.ofNat n).toNat = n := by
  unfold Char.ofNat
  rw [dif_pos h]
  rfl

/-- ASCII lowering never returns an uppercase ASCII letter. -/
theorem isUpperAscii_toLower (c : Char) :
    isUpperAscii (Char.toLower c) = false := by
  unfold Char.toLower
  by_cases h : c.toNat ≥ 65 ∧ c.toNat ≤ 90
  · rw [if_pos h]
    have hv : (c.toNat + 32).isValidChar := Or.inl (by omega)
    have ht := toNat_ofNat_valid (c.toNat + 32) hv
    simp only [isUpperAscii, ht, Bool.and_eq_true, decide_eq_true_eq,
      Bool.and_eq_false_iff, decide_eq_false_iff_not]
    omega
  · rw [if_neg h]
    simp only [isUpperAscii, Bool.and_eq_false_iff, decide_eq_false_iff_not]
    omega

/-- A lower-cased text contains no uppercase ASCII letter. -/
theorem allLower_pyLowerData (s : String) : allLowerL (pyLowerData s) := by
  intro c hc
  rcases List.mem_map.mp hc with ⟨c0, _, rfl⟩
  exact isUpperAscii_toLower c0

/-- A pattern whose compiled form certifies a required uppercase letter
never matches a subject without one. -/
theorem reSearchStr_false_of_mustUpper (p : String) (t : List Char)
    (hm : mustUpperPat p = true) (ht : allLowerL t) :
    reSearchStr p t = false := by
  unfold reSearchStr
  rcases hc : compilePattern p with _ | re2
  · rfl
  · unfold mustUpperPat at hm
    rw [hc] at hm
    show reSearch t re2.1 = false
    unfold reSearch searchFrom
    rw [searchGo_none t re2.1
      (fun pos cap => mall_mustUpper t ht (matchFuel re2.1 t) re2.1 hm pos
        cap) (t.length + 2) 0]
    rfl

/-- Claim C10: each listed pattern with a required uppercase literal —
the Cr, BUN, WBC and Hgb labs, the BP, HR, RR and SpO2 vitals, and the
CT, MRI and US imaging references — matches no lower-cased input at
all; each belongs to the extractor's pattern tables; and on the input
WBC 16.3 the extractor returns the no-supporting-data sentinel. -/
theorem c10_uppercase_patterns_dead :
    (∀ p ∈ upperLiteralPatterns, ∀ text : String,
      reSearchStr p (pyLowerData text) = false) ∧
    (∀ p ∈ upperLiteralPatterns, p ∈ allSupportPatterns) ∧
    extract_supporting_data "WBC 16.3" 4 = noSupportSentinel := by
  refine ⟨?_, by decide, by decide⟩
  intro p hp text
  apply reSearchStr_false_of_mustUpper
  · have hall : upperLiteralPatterns.all mustUpperPat = true := by decide
    exact List.all_eq_true.mp hall p hp
  · exact allLower_pyLowerData text

/-- Claim C10, witness: the theorem applied to the WBC lab pattern and
the input WBC 16.3. -/
theorem c10_witness :
    reSearchStr "\\bWBC( ?=|:)? ?\\d+(\\.\\d+)?\\b"
      (pyLowerData "WBC 16.3") = false :=
  c10_uppercase_patterns_dead.1 "\\bWBC( ?=|:)? ?\\d+(\\.\\d+)?\\b"
    (by decide) "WBC 16.3"

end Cmsiphy
